import Mathlib

/-!
# Verification of the social-media aggregation core

Shallow embedding of the repository's analysis pipeline:
`analyzer.py` (Twitter batch aggregation and location extraction),
`instagram_analyzer.py` (Instagram batch aggregation), and
`main.py` (`combine_analysis_results`).

Modelling conventions:
* Python `float` arithmetic is embedded as exact rational arithmetic (`ℚ`);
  `round(x, n)` is embedded as round-half-to-even on rationals (`pyRound`).
* Python `datetime` instants are embedded as rationals (days since an epoch);
  `datetime.date()` is the floor (`dayOf`), `.isoformat()` date keys are the
  integer day stamps.
* Python `dict` / `collections.Counter` / `collections.defaultdict` are
  embedded as association lists in key-insertion order, matching the
  insertion-order iteration guarantees the source relies on.
* The pluggable sentiment scorer (`TextBlob(...).sentiment.polarity`, an
  external library) is a parameter `pol : String → ℚ`; the aggregation
  wall clock (`datetime.now()`) is a parameter `now : ℚ`.
* Regex character classes `\w`/`\s` are embedded for ASCII text.
-/

/-! ## Python string primitives -/

/-- Regex `\w` (ASCII): letters, digits, underscore. -/
def isWordChar (c : Char) : Bool := c.isAlphanum || c = '_'

/-- Regex `\s`: whitespace. -/
def isSpaceChar (c : Char) : Bool := c.isWhitespace

/-- The `str.strip()` on a character list. -/
def pyStripList (l : List Char) : List Char :=
  ((l.dropWhile isSpaceChar).reverse.dropWhile isSpaceChar).reverse

/-- Python `str.strip()`. -/
def pyStrip (s : String) : String := String.mk (pyStripList s.toList)

/-- Python `str.lower()` (ASCII). -/
def pyLower (s : String) : String := String.mk (s.toList.map Char.toLower)

/-- Predicate: `p` is a leading run of `l`. -/
def listHasLead : List Char → List Char → Bool
  | [], _ => true
  | _ :: _, [] => false
  | p :: ps, c :: cs => p = c && listHasLead ps cs

/-- Python `str.startswith`. -/
def strHasLead (p s : String) : Bool := listHasLead p.toList s.toList

/-- Predicate: `p` occurs as a contiguous run somewhere in `l` (Python `p in s`). -/
def listHasSub (p : List Char) : List Char → Bool
  | [] => decide (p = [])
  | c :: cs => listHasLead p (c :: cs) || listHasSub p cs

/-- Python substring test `p in s`. -/
def strHasSub (p s : String) : Bool := listHasSub p.toList s.toList

/-- Python `str.isdigit()` (ASCII): nonempty and all digits. -/
def pyIsDigit (s : String) : Bool := !s.toList.isEmpty && s.toList.all Char.isDigit

/-- Python `str.isalpha()` (ASCII): nonempty and all letters. -/
def pyIsAlpha (s : String) : Bool := !s.toList.isEmpty && s.toList.all Char.isAlpha

/-- The `re.sub(r'^[^\w\s]+', '', s)`: drop the leading run of symbol characters. -/
def dropLeadSymbols (s : String) : String :=
  String.mk (s.toList.dropWhile (fun c => !(isWordChar c || isSpaceChar c)))

/-- The `re.sub(r'[^\w\s]', '', s)`: delete every non-word, non-space character. -/
def keepWordSpace (s : String) : String :=
  String.mk (s.toList.filter (fun c => isWordChar c || isSpaceChar c))

/-- The `re.sub(r'[^\w]', '', s)`: delete every non-word character. -/
def keepWord (s : String) : String :=
  String.mk (s.toList.filter isWordChar)

/-- Helper for `str.title()`: the boolean records whether the previous
character was a letter. -/
def pyTitleGo : Bool → List Char → List Char
  | _, [] => []
  | prev, c :: cs =>
    if c.isAlpha then (if prev then c.toLower else c.toUpper) :: pyTitleGo true cs
    else c :: pyTitleGo false cs

/-- Python `str.title()` (ASCII). -/
def pyTitle (s : String) : String := String.mk (pyTitleGo false s.toList)

/-- The `s.split(sep)[0]`: the run before the first occurrence of `sep`. -/
def firstSeg (sep : Char) (s : String) : String :=
  String.mk (s.toList.takeWhile (fun c => c ≠ sep))

/-- Python `sep in s` for a single-character separator. -/
def containsChar (s : String) (c : Char) : Bool := s.toList.contains c

/-- The `s.split(' ', 1)[1]`: everything after the first space. -/
def afterFirstSpace (s : String) : String :=
  String.mk ((s.toList.dropWhile (fun c => c ≠ ' ')).drop 1)

/-- First `some` in a list of options (models a Python loop of early returns). -/
def firstSome {α : Type} : List (Option α) → Option α
  | [] => none
  | some a :: _ => some a
  | none :: rest => firstSome rest

/-- Association-list lookup (Python `dict.get` / `x in dict`), in insertion order. -/
def aLookup {K V : Type} [DecidableEq K] : List (K × V) → K → Option V
  | [], _ => none
  | (k2, v) :: r, k => if k2 = k then some v else aLookup r k

/-! ## Rounding and sentiment label -/

/-- Python `round` to an integer: round-half-to-even on rationals. -/
def rhe (q : ℚ) : ℤ :=
  if q - ⌊q⌋ < 1/2 then ⌊q⌋
  else if (1 : ℚ)/2 < q - ⌊q⌋ then ⌊q⌋ + 1
  else if ⌊q⌋ % 2 = 0 then ⌊q⌋ else ⌊q⌋ + 1

/-- Python `round(q, n)`. -/
def pyRound (q : ℚ) (n : ℕ) : ℚ := (rhe (q * (10 : ℚ) ^ n) : ℚ) / (10 : ℚ) ^ n

/-- The `get_sentiment_label` (`analyzer.py`, identical copy in
`instagram_analyzer.py`): three-way polarity label with cutoffs at `±0.1`. -/
def get_sentiment_label (polarity : ℚ) : String :=
  if 1/10 < polarity then "positive"
  else if polarity < -(1/10) then "negative"
  else "neutral"

/-! ## Location extraction (`analyzer.py`) -/

/-- The Indonesian city alias table of `extract_indonesian_city`, in source order. -/
def city_aliases : List (String × String) :=
  [("dki jakarta", "Jakarta"), ("jakarta pusat", "Jakarta"),
   ("jakarta selatan", "Jakarta"), ("jakarta utara", "Jakarta"),
   ("jakarta barat", "Jakarta"), ("jakarta timur", "Jakarta"),
   ("jogja", "Yogyakarta"), ("yogya", "Yogyakarta"), ("jogjakarta", "Yogyakarta"),
   ("bandung raya", "Bandung"), ("kota bandung", "Bandung"),
   ("solo", "Surakarta"), ("semarang", "Semarang"), ("surabaya", "Surabaya"),
   ("medan", "Medan"), ("palembang", "Palembang"), ("makassar", "Makassar"),
   ("denpasar", "Denpasar"), ("bali", "Denpasar"), ("malang", "Malang"),
   ("bogor", "Bogor"), ("tangerang", "Tangerang"), ("bekasi", "Bekasi"),
   ("depok", "Depok"), ("pontianak", "Pontianak"), ("balikpapan", "Balikpapan"),
   ("banjarmasin", "Banjarmasin"), ("manado", "Manado"),
   ("pekanbaru", "Pekanbaru"), ("padang", "Padang"), ("batam", "Batam"),
   ("samarinda", "Samarinda")]

/-- The `prefixes_to_remove` of `extract_indonesian_city`, in source order. -/
def indoLeadWords : List String :=
  ["tinggal di", "domisili", "asal", "dari", "di", "kota", "kabupaten",
   "living in", "based in", "from", "in", "at", "currently in",
   "located in", "residing in", "home:", "location:", "here:"]

/-- The `prefixes_to_remove` of `extract_city_name`, in source order. -/
def genLeadWords : List String :=
  ["living in", "based in", "from", "in", "at", "currently in",
   "located in", "residing in", "home:", "location:", "here:"]

/-- The first-matching-locale-phrase strip (both extractors): case-insensitive
`startswith` check; on the first hit, slice off the phrase length and strip. -/
def stripLeadWord : List String → String → String
  | [], loc => loc
  | w :: rest, loc =>
    if strHasLead w (pyLower loc) then pyStrip (String.mk (loc.toList.drop w.length))
    else stripLeadWord rest loc

/-- The separator list of both extractors, in source order. -/
def separators : List Char := [',', '|', '-', '•', '·', '/']

/-- One iteration of `extract_indonesian_city`'s separator loop: if `sep`
occurs in `location`, take the segment before it, try the alias table, then
punctuation-strip; accept only a segment longer than 2 characters that is not
purely numeric (dropping a leading "kota "/"kabupaten "); otherwise the loop
continues (`none`). -/
def indoTrySep (location : String) (sep : Char) : Option String :=
  if containsChar location sep then
    let cand := pyLower (pyStrip (firstSeg sep location))
    match aLookup city_aliases cand with
    | some city => some city
    | none =>
      let cand2 := pyStrip (keepWordSpace cand)
      if 2 < cand2.length ∧ pyIsDigit cand2 = false then
        some (pyTitle (if strHasLead "kota " cand2 || strHasLead "kabupaten " cand2
                       then afterFirstSpace cand2 else cand2))
      else none
  else none

/-- The `extract_indonesian_city` (`analyzer.py` lines 79-184). -/
def extract_indonesian_city (location_string : String) : Option String :=
  if pyStrip location_string = "" then none
  else
    let location := pyStrip location_string
    let location := pyStrip (dropLeadSymbols location)
    let location := stripLeadWord indoLeadWords location
    let location_clean := pyStrip (pyLower location)
    match aLookup city_aliases location_clean with
    | some c => some c
    | none =>
      match firstSome (separators.map (indoTrySep location)) with
      | some c => some c
      | none =>
        -- the source re-checks the alias table here (always a miss at this point)
        match aLookup city_aliases location_clean with
        | some c => some c
        | none =>
          let cand := pyLower (pyStrip (keepWordSpace location))
          if 2 < cand.length ∧ pyIsDigit cand = false then
            some (pyTitle (if strHasLead "kota " cand || strHasLead "kabupaten " cand
                           then afterFirstSpace cand else cand))
          else none

/-- One iteration of `extract_city_name`'s separator loop: the generic variant
has no alias table, does not lower-case the segment, and accepts any
punctuation-stripped segment longer than 1 character that is not purely
numeric. -/
def cityTrySep (location : String) (sep : Char) : Option String :=
  if containsChar location sep then
    let cand := pyStrip (firstSeg sep location)
    if cand ≠ "" then
      let cand2 := pyStrip (keepWordSpace cand)
      if 1 < cand2.length ∧ pyIsDigit cand2 = false then some (pyTitle cand2)
      else none
    else none
  else none

/-- The `extract_city_name` (`analyzer.py` lines 186-235): the generic fallback. -/
def extract_city_name (location_string : String) : Option String :=
  if pyStrip location_string = "" then none
  else
    let location := pyStrip location_string
    let location := pyStrip (dropLeadSymbols location)
    let location := stripLeadWord genLeadWords location
    match firstSome (separators.map (cityTrySep location)) with
    | some c => some c
    | none =>
      let cand := pyStrip (keepWordSpace location)
      if 1 < cand.length ∧ pyIsDigit cand = false then some (pyTitle cand)
      else none

/-! ## Keyword extraction -/

/-- Attempt to match `https?://\S+` at the head of `l`; on success return the
remainder of the text after the match. -/
def urlRest (l : List Char) : Option (List Char) :=
  let go : List Char → Option (List Char) := fun tail =>
    if (tail.takeWhile (fun c => !isSpaceChar c)).isEmpty then none
    else some (tail.dropWhile (fun c => !isSpaceChar c))
  if listHasLead ['h','t','t','p',':','/','/'] l then go (l.drop 7)
  else if listHasLead ['h','t','t','p','s',':','/','/'] l then go (l.drop 8)
  else none

/-- Structural worker for `scrubTw`/`scrubIg` (`hashMode` adds the `#\w+`
alternative). The fuel argument only forces structural recursion; each step
consumes at least one character, so `fuel = l.length` never runs out. -/
def scrubGo (hashMode : Bool) : ℕ → List Char → List Char
  | 0, l => l
  | _ + 1, [] => []
  | fuel + 1, c :: cs =>
    if (c = '@' ∨ (hashMode ∧ c = '#')) ∧ ¬(cs.takeWhile isWordChar).isEmpty then
      scrubGo hashMode fuel (cs.dropWhile isWordChar)
    else
      match urlRest (c :: cs) with
      | some rest => scrubGo hashMode fuel rest
      | none => c :: scrubGo hashMode fuel cs

/-- The `re.sub(r'@\w+|https?://\S+', '', text)` (`analyzer.py` line 414):
left-to-right scan deleting each match and resuming after it. -/
def scrubTw (l : List Char) : List Char := scrubGo false l.length l

/-- The `re.sub(r'#\w+|@\w+|https?://\S+', '', caption)`
(`instagram_analyzer.py` line 268). -/
def scrubIg (l : List Char) : List Char := scrubGo true l.length l

/-- Structural worker for `findTags`; same fuel discipline as `scrubGo`. -/
def findTagsGo : ℕ → List Char → List String
  | 0, _ => []
  | _ + 1, [] => []
  | fuel + 1, c :: cs =>
    if c = '#' ∧ ¬(cs.takeWhile isWordChar).isEmpty then
      String.mk (cs.takeWhile isWordChar) :: findTagsGo fuel (cs.dropWhile isWordChar)
    else findTagsGo fuel cs

/-- The `re.findall(r'#(\w+)', caption)`: the captured word runs, in order. -/
def findTags (l : List Char) : List String := findTagsGo l.length l

/-- Python `str.split()` helper: split on whitespace runs, dropping empties. -/
def wordsAux : List Char → List Char → List String
  | [], acc => if acc.isEmpty then [] else [String.mk acc.reverse]
  | c :: cs, acc =>
    if isSpaceChar c then
      if acc.isEmpty then wordsAux cs [] else String.mk acc.reverse :: wordsAux cs []
    else wordsAux cs (c :: acc)

/-- Python `str.split()` with no arguments. -/
def pySplitWs (s : String) : List String := wordsAux s.toList []

/-- The inline Twitter stop-word list (`analyzer.py` line 424). -/
def twStop : List String :=
  ["rt", "the", "and", "or", "in", "on", "at", "to", "for", "of", "with", "by"]

/-- The `STOPWORDS` (`instagram_analyzer.py` lines 362-370), in source order
(the source set literal repeats some entries; membership is unaffected). -/
def STOPWORDS : List String :=
  ["the", "and", "but", "for", "are", "this", "that", "with", "have", "from",
   "they", "know", "want", "been", "good", "much", "some", "time", "very",
   "when", "come", "here", "just", "like", "over", "also", "back", "after",
   "first", "well", "way", "even", "new", "work", "will", "can", "said",
   "each", "which", "their", "said", "them", "she", "may", "use", "her",
   "than", "now", "look", "only", "come", "its", "over", "think", "also",
   "your", "years", "way", "these", "give", "day", "most", "us"]

/-- The Twitter keyword extraction (`analyzer.py` lines 411-427): remove
mentions and URLs, split on whitespace, normalize each token, and keep it only
if it has at least 2 characters, is alphabetic, is not a number, and is not a
stop word. -/
def twKeywords (text : String) : List String :=
  let clean_text := String.mk (scrubTw text.toList)
  (pySplitWs clean_text).filterMap (fun word =>
    let clean_word := pyStrip (keepWord (pyLower word))
    if 2 ≤ clean_word.length ∧ pyIsDigit clean_word = false ∧ pyIsAlpha clean_word = true
        ∧ clean_word ∉ twStop
    then some clean_word else none)

/-- The Instagram caption word extraction (`instagram_analyzer.py`
lines 267-278): like the Twitter one but with threshold 3 and `STOPWORDS`. -/
def igCaptionWords (caption : String) : List String :=
  let clean_text := String.mk (scrubIg caption.toList)
  (pySplitWs clean_text).filterMap (fun word =>
    let clean_word := pyStrip (keepWord (pyLower word))
    if 3 ≤ clean_word.length ∧ pyIsDigit clean_word = false ∧ pyIsAlpha clean_word = true
        ∧ clean_word ∉ STOPWORDS
    then some clean_word else none)

/-! ## Dictionaries, counters, sorting -/

/-- The `defaultdict`-style update: modify the value at `k` (inserting
`f dflt` at the end if `k` is new), preserving insertion order. -/
def dUpd {K V : Type} [DecidableEq K] : List (K × V) → K → V → (V → V) → List (K × V)
  | [], k, dflt, f => [(k, f dflt)]
  | (k2, v) :: r, k, dflt, f =>
    if k2 = k then (k2, f v) :: r else (k2, v) :: dUpd r k dflt f

/-- The `Counter[k] += n`. -/
def cAdd {K : Type} [DecidableEq K] (c : List (K × ℕ)) (k : K) (n : ℕ) : List (K × ℕ) :=
  dUpd c k 0 (· + n)

/-- The `Counter.update(ws)`: count each occurrence. -/
def cUpdate {K : Type} [DecidableEq K] (c : List (K × ℕ)) (ws : List K) : List (K × ℕ) :=
  ws.foldl (fun c w => cAdd c w 1) c

/-- The `set.add`: sets are modelled as duplicate-free lists (only cardinality and
membership are consumed). -/
def sAdd (s : List String) (k : String) : List String := if k ∈ s then s else s ++ [k]

/-- Descending-by-count comparison used to model `Counter.most_common`
(`sorted(..., key=itemgetter(1), reverse=True)`). -/
def cntRel {K : Type} (a b : K × ℕ) : Prop := b.2 ≤ a.2

instance {K : Type} : DecidableRel (@cntRel K) :=
  fun a b => inferInstanceAs (Decidable (b.2 ≤ a.2))

instance {K : Type} : IsTotal (K × ℕ) cntRel := ⟨fun a b => le_total b.2 a.2⟩

instance {K : Type} : IsTrans (K × ℕ) cntRel := ⟨fun _ _ _ h1 h2 => le_trans h2 h1⟩

/-- The `Counter.most_common(n)`: stable descending sort by count, truncated. -/
def most_common {K : Type} (c : List (K × ℕ)) (n : ℕ) : List (K × ℕ) :=
  (c.insertionSort cntRel).take n

/-! ## Output data model (`responses.py`) -/

/-- The `Location` (`responses.py`). -/
structure Location where
  location_name : String
  total_mentions : ℕ
deriving DecidableEq

/-- The `Keyword` (`responses.py`). -/
structure Keyword where
  text : String
  mentions : ℕ
deriving DecidableEq

/-- The `Tweet` (`responses.py`); `time` is a `datetime`, embedded as a rational
instant. -/
structure Tweet where
  platform : String
  text : String
  time : ℚ
  username : String
  sentiment : String
  sentiment_score : ℚ
deriving DecidableEq

/-- The `User` (`responses.py`). -/
structure User where
  username : String
  followers : ℤ
  sentiment : String
  sentiment_score : ℚ
  total_tweets : ℕ
deriving DecidableEq

/-- The `AnalyzeResponse` (`responses.py`): the Summary record. Trend keys are
calendar days (ISO date strings embedded as integer day stamps). -/
@[ext]
structure AnalyzeResponse where
  total_mentions : ℕ
  positive_sentiment_percent : ℚ
  avg_engagement_rate : ℚ
  estimated_reach : ℕ
  sentiment_trend : List (ℤ × ℚ)
  top_locations : List Location
  top_keywords : List Keyword
  recent_mentions : List Tweet
  top_influencers : List User
  error : Option String
deriving DecidableEq

/-- Descending by `time` (`sort(key=lambda x: x.time, reverse=True)`). -/
def timeRel (a b : Tweet) : Prop := b.time ≤ a.time

instance : DecidableRel timeRel := fun a b => inferInstanceAs (Decidable (b.time ≤ a.time))

instance : IsTotal Tweet timeRel := ⟨fun a b => le_total b.time a.time⟩

instance : IsTrans Tweet timeRel := ⟨fun _ _ _ h1 h2 => le_trans h2 h1⟩

/-- Descending by `followers` (`sort(key=lambda x: x.followers, reverse=True)`). -/
def folRel (a b : User) : Prop := b.followers ≤ a.followers

instance : DecidableRel folRel := fun a b => inferInstanceAs (Decidable (b.followers ≤ a.followers))

instance : IsTotal User folRel := ⟨fun a b => le_total b.followers a.followers⟩

instance : IsTrans User folRel := ⟨fun _ _ _ h1 h2 => le_trans h2 h1⟩

/-- Descending by the pair `(followers, total_tweets)`
(`sort(key=lambda x: (x.followers, x.total_tweets), reverse=True)`). -/
def igFolRel (a b : User) : Prop :=
  b.followers < a.followers ∨ (b.followers = a.followers ∧ b.total_tweets ≤ a.total_tweets)

instance : DecidableRel igFolRel :=
  fun a b => inferInstanceAs (Decidable (b.followers < a.followers ∨
    (b.followers = a.followers ∧ b.total_tweets ≤ a.total_tweets)))

instance : IsTotal User igFolRel := by
  refine ⟨fun a b => ?_⟩
  rcases lt_trichotomy a.followers b.followers with h | h | h
  · exact Or.inr (Or.inl h)
  · rcases le_total a.total_tweets b.total_tweets with h2 | h2
    · exact Or.inr (Or.inr ⟨h, h2⟩)
    · exact Or.inl (Or.inr ⟨h.symm, h2⟩)
  · exact Or.inl (Or.inl h)

instance : IsTrans User igFolRel := by
  refine ⟨fun a b c h1 h2 => ?_⟩
  rcases h1 with h1 | ⟨e1, t1⟩
  · rcases h2 with h2 | ⟨e2, t2⟩
    · exact Or.inl (lt_trans h2 h1)
    · exact Or.inl (e2 ▸ h1)
  · rcases h2 with h2 | ⟨e2, t2⟩
    · exact Or.inl (e1 ▸ h2)
    · exact Or.inr ⟨e2.trans e1, le_trans t2 t1⟩

/-! ## Twitter aggregation (`analyzer.py`, `analyze`) -/

/-- The `datetime.date()` of an instant: its calendar-day stamp. -/
def dayOf (t : ℚ) : ℤ := ⌊t⌋

/-- The `t.get("public_metrics", {})` with the per-field `.get(_, 0)` defaults
applied at construction. -/
structure PublicMetrics where
  like_count : ℤ
  retweet_count : ℤ
  reply_count : ℤ
deriving DecidableEq

/-- The observable shapes of `t.get("created_at")`:
* `absent`: key missing / `None` / `""` (falsy — the whole date block is skipped);
* `parseable dt`: a string accepted by `datetime.fromisoformat` (after
  `rstrip("Z")`), with parse result `dt`;
* `unparseable`: a string rejected with `ValueError` (caught by the inner
  handler, which falls back to `datetime.now()`);
* `nonString`: a truthy non-string value — `.rstrip` raises `AttributeError`,
  which the inner `except ValueError` does NOT catch, so the outer per-tweet
  handler aborts the rest of this iteration. -/
inductive CreatedAt
  | absent
  | parseable (dt : ℚ)
  | unparseable
  | nonString
deriving DecidableEq

/-- One raw tweet, as consumed by the aggregation loop. `geo` models
`t.get("geo")` as an optional dict holding an optional `place_id`. -/
structure RawTweet where
  text : String
  author_id : Option String
  created_at : CreatedAt
  metrics : PublicMetrics
  geo : Option (Option String)
deriving DecidableEq

/-- One record of the `users` side table (`includes.users`), with the source's
`.get` defaults noted per field: `username` (default `'unknown'`),
`public_metrics.followers_count` (default 0), `location` (optional). -/
structure UserRec where
  username : Option String
  followers : ℤ
  location : Option String
deriving DecidableEq

/-- One record of the `places` side table (`includes.places`); all three
fields are read with `.get(_, "")`. -/
structure PlaceRec where
  country : String
  full_name : String
  place_type : String
deriving DecidableEq

/-- One `user_sentiments` entry (Twitter): defaultdict value
`{"sentiments": [], "followers": 0, "tweet_count": 0}`. -/
structure TwUS where
  sentiments : List ℚ
  followers : ℤ
  tweet_count : ℕ
deriving DecidableEq

/-- The mutable tallies of the Twitter aggregation loop. -/
structure TwState where
  positive_count : ℕ
  trend : List (ℤ × ℚ × ℕ)
  engagements : List ℚ
  reach_set : List String
  city_counter : List (String × ℕ)
  keywords_counter : List (String × ℕ)
  recent_tweets_list : List Tweet
  user_sentiments : List (String × TwUS)
deriving DecidableEq

/-- The initial (all-empty) tallies. -/
def twInit : TwState := ⟨0, [], [], [], [], [], [], []⟩

/-- The `trend[date][0] += polarity; trend[date][1] += 1`. -/
def tAdd (σ : TwState) (d : ℤ) (p : ℚ) : TwState :=
  { σ with trend := dUpd σ.trend d (0, 0) (fun sn => (sn.1 + p, sn.2 + 1)) }

/-- Truthiness of an optional string result (`if not city_name`). -/
def optFalsy (o : Option String) : Bool :=
  match o with
  | none => true
  | some s => s = ""

/-- The profile-location fallback (lines 356-365 of `analyzer.py`): try the
Indonesian extractor, fall back to the generic one on a falsy result, and
count the city if the final result is truthy. -/
def profileCityStage (σ : TwState) (location : String) : TwState :=
  if location ≠ "" ∧ pyStrip location ≠ "" then
    let c1 := extract_indonesian_city location
    let city_name := if optFalsy c1 then extract_city_name location else c1
    match city_name with
    | some c => if c ≠ "" then { σ with city_counter := cAdd σ.city_counter c 1 } else σ
    | none => σ
  else σ

/-- Lines 327-365 of `analyzer.py`: author information — influencer tallies,
engagement contribution, reach, profile-location city. Returns the updated
state and the resolved `username` (`""` when the author record is missing). -/
def authorStage (users : List (String × UserRec)) (σ : TwState) (t : RawTweet)
    (polarity : ℚ) : TwState × String :=
  match t.author_id with
  | none => (σ, "")
  | some aid =>
    match aLookup users aid with
    | none => (σ, "")
    | some author =>
      let username := "@" ++ author.username.getD "unknown"
      let followers := author.followers
      let us := dUpd σ.user_sentiments aid ⟨[], 0, 0⟩
        (fun d => ⟨d.sentiments ++ [polarity], followers, d.tweet_count + 1⟩)
      let σ := { σ with user_sentiments := us }
      let raw := t.metrics.like_count + t.metrics.retweet_count + t.metrics.reply_count
      let eng : ℚ := if 0 < followers then (raw : ℚ) / (followers : ℚ) * 100 else (raw : ℚ)
      let σ := { σ with engagements := σ.engagements ++ [eng],
                        reach_set := sAdd σ.reach_set aid }
      let σ :=
        match author.location with
        | some location => profileCityStage σ location
        | none => σ
      (σ, username)

/-- Lines 367-393 of `analyzer.py`: city extraction from geo data, choosing
the extractor variant by the place's country field. -/
def geoStage (places : List (String × PlaceRec)) (σ : TwState) (t : RawTweet) : TwState :=
  match t.geo with
  | some (some pid) =>
    if pid ≠ "" then
      match aLookup places pid with
      | some place =>
        let place_country := pyLower place.country
        let place_name := place.full_name
        let place_type := place.place_type
        let city_from_geo : Option String :=
          if place_country = "indonesia" ∨ strHasSub "indonesia" place_country then
            if place_type = "city" ∨ place_type = "admin" then
              extract_indonesian_city place_name
            else if place_name ≠ "" then extract_indonesian_city place_name
            else none
          else
            if place_type = "city" ∨ place_type = "admin" then
              extract_city_name place_name
            else if place_name ≠ "" then extract_city_name place_name
            else none
        match city_from_geo with
        | some c => if c ≠ "" then { σ with city_counter := cAdd σ.city_counter c 1 } else σ
        | none => σ
      | none => σ
    else σ
  | _ => σ

/-- Lines 395-409 of `analyzer.py`: the recent-mention object (appended only
when a username was resolved; a missing parse time defaults to `now`). -/
def mentionStage (now : ℚ) (σ : TwState) (t : RawTweet) (polarity : ℚ)
    (sentiment_label : String) (username : String) (parsed_datetime : Option ℚ) : TwState :=
  if username ≠ "" then
    let pd := parsed_datetime.getD now
    { σ with recent_tweets_list := σ.recent_tweets_list ++
        [⟨"twitter", t.text, pd, username, sentiment_label, pyRound polarity 3⟩] }
  else σ

/-- Lines 411-427 of `analyzer.py`: keyword extraction into the running tally. -/
def keywordStage (σ : TwState) (t : RawTweet) : TwState :=
  { σ with keywords_counter := cUpdate σ.keywords_counter (twKeywords t.text) }

/-- Lines 327-427 of `analyzer.py`: everything in the per-tweet body after the
date-parsing block, staged as above. -/
def procTweetRest (pol : String → ℚ) (now : ℚ) (users : List (String × UserRec))
    (places : List (String × PlaceRec)) (σ : TwState) (t : RawTweet)
    (polarity : ℚ) (sentiment_label : String) (parsed_datetime : Option ℚ) : TwState :=
  let as := authorStage users σ t polarity
  keywordStage
    (mentionStage now (geoStage places as.1 t) t polarity sentiment_label as.2 parsed_datetime) t

/-- The per-tweet body (lines 294-431 of `analyzer.py`). The whole body runs
under a `try` whose handler swallows any exception and continues with the next
tweet; the only exception reachable in this model is the `AttributeError`
raised by `created_at.rstrip` on a truthy non-string value, which aborts the
iteration right after the positive-count update. -/
def procTweet (pol : String → ℚ) (now : ℚ) (users : List (String × UserRec))
    (places : List (String × PlaceRec)) (σ : TwState) (t : RawTweet) : TwState :=
  let polarity := pol t.text
  let sentiment_label := get_sentiment_label polarity
  let σ1 := if 0 < polarity then { σ with positive_count := σ.positive_count + 1 } else σ
  match t.created_at with
  | CreatedAt.nonString => σ1
  | CreatedAt.absent => procTweetRest pol now users places σ1 t polarity sentiment_label none
  | CreatedAt.parseable dt =>
      procTweetRest pol now users places (tAdd σ1 (dayOf dt) polarity) t polarity
        sentiment_label (some dt)
  | CreatedAt.unparseable =>
      procTweetRest pol now users places (tAdd σ1 (dayOf now) polarity) t polarity
        sentiment_label none

/-- The zero-valued response returned for an empty batch (`error` unset). -/
def emptyResponse : AnalyzeResponse := ⟨0, 0, 0, 0, [], [], [], [], [], none⟩

/-- The `analyze` (`analyzer.py` lines 247-490), from the already-fetched batch on:
the fetch itself (and its error short-circuit) is the out-of-scope collaborator.
Parameters: `pol` the pluggable sentiment scorer, `now` the aggregation wall
clock, `users`/`places` the side tables, `tweets` the batch. -/
def analyze (pol : String → ℚ) (now : ℚ) (users : List (String × UserRec))
    (places : List (String × PlaceRec)) (tweets : List RawTweet) : AnalyzeResponse :=
  let total_mentions := tweets.length
  if total_mentions = 0 then emptyResponse
  else
    let σ := tweets.foldl (procTweet pol now users places) twInit
    let sentiment_percent : ℚ :=
      if 0 < total_mentions then (σ.positive_count : ℚ) / (total_mentions : ℚ) * 100 else 0
    let avg_engagement : ℚ :=
      if σ.engagements ≠ [] then σ.engagements.sum / (σ.engagements.length : ℚ) else 0
    let sentiment_trend := σ.trend.filterMap (fun dc =>
      if 0 < dc.2.2 then some (dc.1, pyRound (dc.2.1 / (dc.2.2 : ℚ)) 3) else none)
    let top_locations := (most_common σ.city_counter 5).map (fun p => Location.mk p.1 p.2)
    let top_keywords := (most_common σ.keywords_counter 10).map (fun p => Keyword.mk p.1 p.2)
    let top_influencers := σ.user_sentiments.filterMap (fun au =>
      if 0 < au.2.tweet_count then
        let avg_sentiment := au.2.sentiments.sum / (au.2.sentiments.length : ℚ)
        match aLookup users au.1 with
        | some author => some (User.mk ("@" ++ author.username.getD "unknown") au.2.followers
            (get_sentiment_label avg_sentiment) (pyRound avg_sentiment 3) au.2.tweet_count)
        | none => none
      else none)
    let top_influencers := (top_influencers.insertionSort folRel).take 5
    let recent_mentions := (σ.recent_tweets_list.insertionSort timeRel).take 5
    ⟨total_mentions, pyRound sentiment_percent 2, pyRound avg_engagement 4,
     σ.reach_set.length, sentiment_trend, top_locations, top_keywords,
     recent_mentions, top_influencers, none⟩

/-! ## Instagram aggregation (`instagram_analyzer.py`, `analyze_instagram`) -/

/-- The observable shapes of `post.get("timestamp")`:
* `absent`: missing/falsy — the `else` branch files the post under "today";
* `strParse r`: a string, with `r` the `fromisoformat` result after the
  `rstrip("Z")`/`split("+")` cleanup (`none` = `ValueError`, caught, → "today",
  `parsed_datetime` left `None`);
* `numTs r`: an int/float, with `r` the `fromtimestamp` result (`none` =
  raises, caught, → "today");
* `otherType`: a truthy value of any other type — neither `isinstance` branch
  fires, `parsed_datetime` stays `None`, and no trend entry is made. -/
inductive IgTs
  | absent
  | strParse (r : Option ℚ)
  | numTs (r : Option ℚ)
  | otherType
deriving DecidableEq

/-- The `post.get("locationName")` when truthy: a string or a (nonempty) dict with
an optional `name` entry (other types yield `""` from the extractor). -/
inductive LocVal
  | lstr (s : String)
  | ldict (name : Option String)
deriving DecidableEq

/-- The `extract_instagram_location` (`instagram_analyzer.py` lines 353-359). -/
def extract_instagram_location : LocVal → String
  | LocVal.lstr s => s
  | LocVal.ldict n => n.getD ""

/-- Python truthiness of a `locationName` value (`if location_name:`). -/
def locTruthy : LocVal → Bool
  | LocVal.lstr s => s ≠ ""
  | LocVal.ldict _ => true

/-- One raw Instagram post. String fields carry their raw optionality; the
source coerces them with `... or ""` / `.get(_, 0)`. `ownerFullName` and the
video play counts are read into unused locals in the source and are omitted. -/
structure RawPost where
  caption : Option String
  ownerUsername : Option String
  ownerId : Option String
  timestamp : IgTs
  likesCount : Option ℤ
  commentsCount : Option ℤ
  reshareCount : Option ℤ
  locationName : Option LocVal
  hashtags : List String
deriving DecidableEq

/-- One `user_sentiments` entry (Instagram): defaultdict value
`{"sentiments": [], "followers": 0, "post_count": 0, "total_engagement": 0}`. -/
structure IgUS where
  sentiments : List ℚ
  followers : ℤ
  post_count : ℕ
  total_engagement : ℤ
deriving DecidableEq

/-- The mutable tallies of the Instagram aggregation loop. -/
structure IgState where
  positive_count : ℕ
  trend : List (ℤ × ℚ × ℕ)
  engagements : List ℚ
  reach_set : List String
  city_counter : List (String × ℕ)
  keywords_counter : List (String × ℕ)
  recent_posts_list : List Tweet
  user_sentiments : List (String × IgUS)
deriving DecidableEq

/-- The initial (all-empty) Instagram tallies. -/
def igInit : IgState := ⟨0, [], [], [], [], [], [], []⟩

/-- The `trend[date][0] += polarity; trend[date][1] += 1` (Instagram state). -/
def tAddIg (σ : IgState) (d : ℤ) (p : ℚ) : IgState :=
  { σ with trend := dUpd σ.trend d (0, 0) (fun sn => (sn.1 + p, sn.2 + 1)) }

/-- The hashtag-weighted keyword tally update for one post
(`instagram_analyzer.py` lines 251-280): structured hashtags (≤10, weight 3),
caption hashtags (≤5, weight 2), then the filtered caption words (weight 1);
all of it only when the caption is nonempty. -/
def igKeywordStep (kc : List (String × ℕ)) (hashtags : List String)
    (caption : String) : List (String × ℕ) :=
  if caption ≠ "" then
    let kc := (hashtags.take 10).foldl (fun kc h =>
      let ch := pyLower h
      if 2 < ch.length then cAdd kc ch 3 else kc) kc
    let kc := ((findTags caption.toList).take 5).foldl (fun kc h =>
      let ch := pyLower h
      if 2 < ch.length then cAdd kc ch 2 else kc) kc
    cUpdate kc (igCaptionWords caption)
  else kc

/-- Lines 159-188 of `instagram_analyzer.py`: date parsing for trends.
Returns the updated state and `parsed_datetime`. -/
def igDateStage (now : ℚ) (σ : IgState) (ts : IgTs) (polarity : ℚ) : IgState × Option ℚ :=
  match ts with
  | IgTs.absent => (tAddIg σ (dayOf now) polarity, some now)
  | IgTs.strParse (some dt) => (tAddIg σ (dayOf dt) polarity, some dt)
  | IgTs.strParse none => (tAddIg σ (dayOf now) polarity, none)
  | IgTs.numTs (some dt) => (tAddIg σ (dayOf dt) polarity, some dt)
  | IgTs.numTs none => (tAddIg σ (dayOf now) polarity, none)
  | IgTs.otherType => (σ, none)

/-- Lines 190-205 of `instagram_analyzer.py`: estimated engagement rate from
raw counts, capped at 100, contributed only when there is any engagement. -/
def igEngStage (σ : IgState) (likes total_engagement : ℤ) : IgState :=
  if 0 < total_engagement then
    let estimated_followers : ℤ := max (likes * 10) 1000
    let eng_rate : ℚ := (total_engagement : ℚ) / (estimated_followers : ℚ) * 100
    { σ with engagements := σ.engagements ++ [min eng_rate 100] }
  else σ

/-- Lines 207-211 of `instagram_analyzer.py`: distinct-author reach, keyed by
`ownerId` when truthy, else by `ownerUsername`. -/
def igReachStage (σ : IgState) (owner_id username : String) : IgState :=
  if owner_id ≠ "" then { σ with reach_set := sAdd σ.reach_set owner_id }
  else if username ≠ "" then { σ with reach_set := sAdd σ.reach_set username }
  else σ

/-- Lines 213-225 of `instagram_analyzer.py`: influencer tallies keyed by
username, with the likes-based follower estimate. -/
def igInflStage (σ : IgState) (username : String) (polarity : ℚ)
    (total_engagement likes : ℤ) : IgState :=
  if username ≠ "" then
    { σ with user_sentiments := dUpd σ.user_sentiments username ⟨[], 0, 0, 0⟩ (fun d =>
        let d1 : IgUS := ⟨d.sentiments ++ [polarity], d.followers, d.post_count + 1,
                          d.total_engagement + total_engagement⟩
        if 0 < likes then { d1 with followers := max d1.followers (likes * 15) } else d1) }
  else σ

/-- Lines 227-232 of `instagram_analyzer.py`: the location tally. -/
def igLocStage (σ : IgState) (ln : Option LocVal) : IgState :=
  match ln with
  | some lv =>
    if locTruthy lv then
      let city_name := extract_instagram_location lv
      if city_name ≠ "" then { σ with city_counter := cAdd σ.city_counter city_name 1 }
      else σ
    else σ
  | none => σ

/-- Lines 234-249 of `instagram_analyzer.py`: the recent-mention object
(appended only when both a username and a caption are present). -/
def igMentionStage (now : ℚ) (σ : IgState) (username caption : String)
    (polarity : ℚ) (sentiment_label : String) (parsed_datetime : Option ℚ) : IgState :=
  if username ≠ "" ∧ caption ≠ "" then
    let pd := parsed_datetime.getD now
    let formatted_username := if strHasLead "@" username then username else "@" ++ username
    let shown := if 200 < caption.length then caption.take 200 ++ "..." else caption
    { σ with recent_posts_list := σ.recent_posts_list ++
        [⟨"instagram", shown, pd, formatted_username, sentiment_label, pyRound polarity 3⟩] }
  else σ

/-- The per-post body (`instagram_analyzer.py` lines 138-284), staged as
above. In this model no exception point is reachable (every shape anomaly the
source distinguishes is handled by an explicit branch), so the outer per-post
handler never fires. -/
def procPost (pol : String → ℚ) (now : ℚ) (σ : IgState) (post : RawPost) : IgState :=
  let caption := post.caption.getD ""
  let username := post.ownerUsername.getD ""
  let owner_id := post.ownerId.getD ""
  -- lines 146-157: sentiment on the caption (empty caption ⇒ 0 / "neutral")
  let polarity : ℚ := if caption ≠ "" then pol caption else 0
  let sentiment_label := if caption ≠ "" then get_sentiment_label polarity else "neutral"
  let σ := if caption ≠ "" ∧ 0 < polarity
           then { σ with positive_count := σ.positive_count + 1 } else σ
  let ds := igDateStage now σ post.timestamp polarity
  let likes := post.likesCount.getD 0
  let comments := post.commentsCount.getD 0
  let reshares := post.reshareCount.getD 0
  let total_engagement := likes + comments + reshares
  let σ := igEngStage ds.1 likes total_engagement
  let σ := igReachStage σ owner_id username
  let σ := igInflStage σ username polarity total_engagement likes
  let σ := igLocStage σ post.locationName
  let σ := igMentionStage now σ username caption polarity sentiment_label ds.2
  -- lines 251-280: keywords
  { σ with keywords_counter := igKeywordStep σ.keywords_counter post.hashtags caption }

/-- The `analyze_instagram` (`instagram_analyzer.py` lines 65-342), from the
already-extracted `posts` list on (the fetch and the response-shape unpacking
are the out-of-scope collaborator). -/
def analyze_instagram (pol : String → ℚ) (now : ℚ) (posts : List RawPost) : AnalyzeResponse :=
  let total_mentions := posts.length
  if total_mentions = 0 then emptyResponse
  else
    let σ := posts.foldl (procPost pol now) igInit
    let sentiment_percent : ℚ :=
      if 0 < total_mentions then (σ.positive_count : ℚ) / (total_mentions : ℚ) * 100 else 0
    let avg_engagement : ℚ :=
      if σ.engagements ≠ [] then σ.engagements.sum / (σ.engagements.length : ℚ) else 0
    let sentiment_trend := σ.trend.filterMap (fun dc =>
      if 0 < dc.2.2 then some (dc.1, pyRound (dc.2.1 / (dc.2.2 : ℚ)) 3) else none)
    let top_locations := (most_common σ.city_counter 5).map (fun p => Location.mk p.1 p.2)
    let top_keywords := (most_common σ.keywords_counter 10).map (fun p => Keyword.mk p.1 p.2)
    let top_influencers := σ.user_sentiments.filterMap (fun ud =>
      if 0 < ud.2.post_count then
        let avg_sentiment := ud.2.sentiments.sum / (ud.2.sentiments.length : ℚ)
        let formatted_username := if strHasLead "@" ud.1 then ud.1 else "@" ++ ud.1
        some (User.mk formatted_username ud.2.followers (get_sentiment_label avg_sentiment)
          (pyRound avg_sentiment 3) ud.2.post_count)
      else none)
    let top_influencers := (top_influencers.insertionSort igFolRel).take 5
    let recent_mentions := (σ.recent_posts_list.insertionSort timeRel).take 5
    ⟨total_mentions, pyRound sentiment_percent 2, pyRound avg_engagement 4,
     σ.reach_set.length, sentiment_trend, top_locations, top_keywords,
     recent_mentions, top_influencers, none⟩

/-! ## The cross-source combiner (`main.py`, `combine_analysis_results`) -/

/-- The combiner's trend merge for one `(date, sentiment)` entry: average with
the stored value if the date is present, else insert at the end. -/
def dMerge : List (ℤ × ℚ) → ℤ → ℚ → List (ℤ × ℚ)
  | [], k, v => [(k, v)]
  | (k2, w) :: r, k, v =>
    if k2 = k then (k2, (w + v) / 2) :: r else (k2, w) :: dMerge r k v

/-- In-place association-list overwrite at an existing key. -/
def dReplace {K V : Type} [DecidableEq K] : List (K × V) → K → V → List (K × V)
  | [], _, _ => []
  | (k2, w) :: r, k, v =>
    if k2 = k then (k2, v) :: r else (k2, w) :: dReplace r k v

/-- The `combine_analysis_results` (`main.py` lines 202-297) as the program
actually executes it. `main.py` imports neither `Counter` (used at lines 242
and 253) nor `Location` (line 248) nor `Keyword` (line 259), so on every
non-empty argument execution runs the basic-metric and trend computations and
then raises `NameError` at `location_counter = Counter()`; only the
`if not results:` branch returns, with the zero response (`error` left at its
`None` default). The raise discards the values computed before it, so the
observable behaviour is exactly this two-branch function. -/
def combine_analysis_results : List AnalyzeResponse → Except String AnalyzeResponse
  | [] => Except.ok ⟨0, 0, 0, 0, [], [], [], [], [], none⟩
  | _ :: _ => Except.error "NameError: name Counter is not defined"

/-- The body of `combine_analysis_results` (`main.py` lines 207-297) under the
one-line repair that adds the missing imports (`collections.Counter` and
`Location`/`Keyword` from `responses.py`): the merged summary the dead code
after line 241 would build. Translated from the source lines themselves; only
the unbound names are resolved. -/
def combine_analysis_results_fixed (results : List AnalyzeResponse) : AnalyzeResponse :=
  if results.isEmpty then emptyResponse
  else
    let total_mentions := (results.map (fun r => r.total_mentions)).sum
    let total_positive : ℚ :=
      ((results.filter (fun r => 0 < r.total_mentions)).map
        (fun r => r.positive_sentiment_percent * (r.total_mentions : ℚ) / 100)).sum
    let avg_positive_sentiment : ℚ :=
      if 0 < total_mentions then total_positive / (total_mentions : ℚ) * 100 else 0
    let total_weighted_engagement : ℚ :=
      ((results.filter (fun r => 0 < r.total_mentions)).map
        (fun r => r.avg_engagement_rate * (r.total_mentions : ℚ))).sum
    let avg_engagement_rate : ℚ :=
      if 0 < total_mentions then total_weighted_engagement / (total_mentions : ℚ) else 0
    let estimated_reach := (results.map (fun r => r.estimated_reach)).sum
    let combined_sentiment_trend := results.foldl
      (fun d r => r.sentiment_trend.foldl (fun d p => dMerge d p.1 p.2) d) []
    let location_counter := results.foldl
      (fun c r => r.top_locations.foldl (fun c l => cAdd c l.location_name l.total_mentions) c) []
    let top_locations := (most_common location_counter 5).map (fun p => Location.mk p.1 p.2)
    let keyword_counter := results.foldl
      (fun c r => r.top_keywords.foldl (fun c k => cAdd c k.text k.mentions) c) []
    let top_keywords := (most_common keyword_counter 10).map (fun p => Keyword.mk p.1 p.2)
    let all_mentions := (results.map (fun r => r.recent_mentions)).flatten
    let recent_mentions := (all_mentions.insertionSort timeRel).take 10
    let all_influencers := (results.map (fun r => r.top_influencers)).flatten
    let influencer_dict := all_influencers.foldl (fun d i =>
      match aLookup d i.username with
      | none => d ++ [(i.username, i)]
      | some j => if j.followers < i.followers then dReplace d i.username i else d) []
    let top_influencers := ((influencer_dict.map (fun p => p.2)).insertionSort folRel).take 5
    ⟨total_mentions, pyRound avg_positive_sentiment 2, pyRound avg_engagement_rate 4,
     estimated_reach, combined_sentiment_trend, top_locations, top_keywords,
     recent_mentions, top_influencers, none⟩

/-- The location / keyword lists as `(key, count)` pairs. -/
def locPairs (l : List Location) : List (String × ℕ) :=
  l.map (fun x => (x.location_name, x.total_mentions))

/-- See `locPairs`. -/
def kwPairs (l : List Keyword) : List (String × ℕ) :=
  l.map (fun k => (k.text, k.mentions))

/-- The structural facts about a Summary that the aggregators guarantee and
the single-summary combiner round trip consumes. -/
def SummaryInv (s : AnalyzeResponse) : Prop :=
  pyRound s.positive_sentiment_percent 2 = s.positive_sentiment_percent ∧
  pyRound s.avg_engagement_rate 4 = s.avg_engagement_rate ∧
  (s.total_mentions = 0 → s.positive_sentiment_percent = 0 ∧ s.avg_engagement_rate = 0) ∧
  (s.sentiment_trend.map Prod.fst).Nodup ∧
  ((locPairs s.top_locations).map Prod.fst).Nodup ∧
  (locPairs s.top_locations).Sorted cntRel ∧
  s.top_locations.length ≤ 5 ∧
  ((kwPairs s.top_keywords).map Prod.fst).Nodup ∧
  (kwPairs s.top_keywords).Sorted cntRel ∧
  s.top_keywords.length ≤ 10 ∧
  s.recent_mentions.Sorted timeRel ∧
  s.recent_mentions.length ≤ 10 ∧
  s.top_influencers.Sorted folRel ∧
  s.top_influencers.length ≤ 5 ∧
  s.error = none

/-! ## Scanner progress lemmas -/

/-- Length of `dropWhile` never exceeds the input length. -/
theorem dwLen {p : Char → Bool} : ∀ l : List Char, (l.dropWhile p).length ≤ l.length
  | [] => le_refl _
  | c :: cs => by
    rw [List.dropWhile]
    cases p c
    · exact le_refl _
    · exact le_trans (dwLen cs) (Nat.le_succ _)

theorem listHasLead_ne_nil {p l : List Char} (hp : p ≠ []) (h : listHasLead p l = true) :
    l ≠ [] := by
  cases p with
  | nil => exact absurd rfl hp
  | cons a ps => cases l with
    | nil => exact absurd h (by simp [listHasLead])
    | cons c cs => simp

theorem urlRest_shrink {l r : List Char} (h : urlRest l = some r) : r.length < l.length := by
  unfold urlRest at h
  by_cases h7 : listHasLead ['h','t','t','p',':','/','/'] l = true
  · rw [if_pos h7] at h
    simp only at h
    split at h
    · exact absurd h (by simp)
    · have hl : l ≠ [] := listHasLead_ne_nil (by simp) h7
      have hlen : 0 < l.length := List.length_pos.mpr hl
      have := @dwLen (fun c => !isSpaceChar c) (l.drop 7)
      rw [List.length_drop] at this
      have : r.length ≤ l.length - 7 := by
        cases Option.some.inj h
        exact this
      omega
  · rw [if_neg h7] at h
    by_cases h8 : listHasLead ['h','t','t','p','s',':','/','/'] l = true
    · rw [if_pos h8] at h
      simp only at h
      split at h
      · exact absurd h (by simp)
      · have hl : l ≠ [] := listHasLead_ne_nil (by simp) h8
        have hlen : 0 < l.length := List.length_pos.mpr hl
        have := @dwLen (fun c => !isSpaceChar c) (l.drop 8)
        rw [List.length_drop] at this
        have : r.length ≤ l.length - 8 := by
          cases Option.some.inj h
          exact this
        omega
    · rw [if_neg h8] at h
      exact absurd h (by simp)


/-! ## Arithmetic lemmas about Python rounding -/

theorem rhe_intCast (k : ℤ) : rhe (k : ℚ) = k := by
  unfold rhe
  simp [Int.floor_intCast]

theorem rhe_nonneg {q : ℚ} (h : 0 ≤ q) : 0 ≤ rhe q := by
  unfold rhe
  have hf : (0 : ℤ) ≤ ⌊q⌋ := Int.floor_nonneg.mpr h
  split
  · exact hf
  · split
    · omega
    · split
      · exact hf
      · omega

theorem rhe_le_int {q : ℚ} {M : ℤ} (h : q ≤ (M : ℚ)) : rhe q ≤ M := by
  unfold rhe
  have hf : ⌊q⌋ ≤ M := by
    have := Int.floor_le_floor h
    simpa [Int.floor_intCast] using this
  rcases lt_or_eq_of_le hf with hlt | heq
  · split
    · exact hf
    · split
      · omega
      · split
        · exact hf
        · omega
  · have hq : q - (⌊q⌋ : ℚ) ≤ 0 := by
      have h1 : q ≤ (⌊q⌋ : ℚ) := by rw [heq]; exact h
      linarith
    -- at the upper end the fractional part is 0, so every branch returns the floor
    split
    · exact hf
    · split
      · linarith
      · split
        · exact hf
        · linarith

theorem pyRound_nonneg {q : ℚ} (n : ℕ) (h : 0 ≤ q) : 0 ≤ pyRound q n := by
  unfold pyRound
  have hp : (0 : ℚ) < (10 : ℚ) ^ n := by positivity
  have h1 : (0 : ℤ) ≤ rhe (q * (10 : ℚ) ^ n) := rhe_nonneg (by positivity)
  have h2 : (0 : ℚ) ≤ (rhe (q * (10 : ℚ) ^ n) : ℚ) := by exact_mod_cast h1
  positivity

theorem pyRound_le_int {q : ℚ} {M : ℤ} (n : ℕ) (h : q ≤ (M : ℚ)) : pyRound q n ≤ M := by
  unfold pyRound
  have hp : (0 : ℚ) < (10 : ℚ) ^ n := by positivity
  rw [div_le_iff₀ hp]
  have h2 : q * (10 : ℚ) ^ n ≤ ((M * 10 ^ n : ℤ) : ℚ) := by
    push_cast
    nlinarith
  have h3 := rhe_le_int h2
  exact_mod_cast h3

theorem pyRound_idem (q : ℚ) (n : ℕ) : pyRound (pyRound q n) n = pyRound q n := by
  unfold pyRound
  have hp : ((10 : ℚ) ^ n) ≠ 0 := by positivity
  rw [div_mul_cancel₀ _ hp, rhe_intCast]

theorem pyRound_zero (n : ℕ) : pyRound 0 n = 0 := by
  unfold pyRound
  have : ((0 : ℚ)) * (10 : ℚ) ^ n = ((0 : ℤ) : ℚ) := by norm_num
  rw [this, rhe_intCast]
  norm_num

/-! ## Association-list lemmas -/

theorem aLookup_eq_none {K V : Type} [DecidableEq K] {d : List (K × V)} {k : K} :
    aLookup d k = none ↔ k ∉ d.map Prod.fst := by
  induction d with
  | nil => simp [aLookup]
  | cons p r ih =>
    obtain ⟨k2, v⟩ := p
    by_cases h : k2 = k
    · subst h
      simp [aLookup]
    · simp [aLookup, h, ih, Ne.symm h]

theorem dUpd_map_fst_of_mem {K V : Type} [DecidableEq K] {d : List (K × V)} {k : K}
    (dflt : V) (f : V → V) (h : k ∈ d.map Prod.fst) :
    (dUpd d k dflt f).map Prod.fst = d.map Prod.fst := by
  induction d with
  | nil => simp at h
  | cons p r ih =>
    obtain ⟨k2, v⟩ := p
    by_cases hk : k2 = k
    · subst hk
      simp [dUpd]
    · simp only [List.map_cons, List.mem_cons] at h
      rcases h with h | h
      · exact absurd h.symm hk
      · simp [dUpd, hk, ih h]

theorem dUpd_map_fst_of_not_mem {K V : Type} [DecidableEq K] {d : List (K × V)} {k : K}
    (dflt : V) (f : V → V) (h : k ∉ d.map Prod.fst) :
    (dUpd d k dflt f).map Prod.fst = d.map Prod.fst ++ [k] := by
  induction d with
  | nil => simp [dUpd]
  | cons p r ih =>
    obtain ⟨k2, v⟩ := p
    simp only [List.map_cons, List.mem_cons] at h
    push_neg at h
    simp [dUpd, Ne.symm h.1, ih h.2]

theorem dUpd_nodup {K V : Type} [DecidableEq K] {d : List (K × V)} {k : K}
    (dflt : V) (f : V → V) (h : (d.map Prod.fst).Nodup) :
    ((dUpd d k dflt f).map Prod.fst).Nodup := by
  by_cases hm : k ∈ d.map Prod.fst
  · rw [dUpd_map_fst_of_mem dflt f hm]
    exact h
  · rw [dUpd_map_fst_of_not_mem dflt f hm]
    simp [List.nodup_append, h, hm]

theorem cAdd_nodup {K : Type} [DecidableEq K] {c : List (K × ℕ)} {k : K} (n : ℕ)
    (h : (c.map Prod.fst).Nodup) : ((cAdd c k n).map Prod.fst).Nodup :=
  dUpd_nodup 0 _ h

theorem cUpdate_nodup {K : Type} [DecidableEq K] {c : List (K × ℕ)} {ws : List K}
    (h : (c.map Prod.fst).Nodup) : ((cUpdate c ws).map Prod.fst).Nodup := by
  induction ws generalizing c with
  | nil => exact h
  | cons w rest ih => exact ih (cAdd_nodup 1 h)

theorem sAdd_length_le (s : List String) (k : String) :
    (sAdd s k).length ≤ s.length + 1 := by
  unfold sAdd
  split
  · omega
  · simp

/-! ## Per-field effect lemmas for the Twitter loop stages -/

theorem profileCityStage_positive_count (σ : TwState) (loc : String) :
    (profileCityStage σ loc).positive_count = σ.positive_count := by
  unfold profileCityStage
  dsimp only
  repeat' split
  all_goals rfl

theorem profileCityStage_trend (σ : TwState) (loc : String) :
    (profileCityStage σ loc).trend = σ.trend := by
  unfold profileCityStage
  dsimp only
  repeat' split
  all_goals rfl

theorem profileCityStage_engagements (σ : TwState) (loc : String) :
    (profileCityStage σ loc).engagements = σ.engagements := by
  unfold profileCityStage
  dsimp only
  repeat' split
  all_goals rfl

theorem profileCityStage_reach_set (σ : TwState) (loc : String) :
    (profileCityStage σ loc).reach_set = σ.reach_set := by
  unfold profileCityStage
  dsimp only
  repeat' split
  all_goals rfl

theorem profileCityStage_keywords_counter (σ : TwState) (loc : String) :
    (profileCityStage σ loc).keywords_counter = σ.keywords_counter := by
  unfold profileCityStage
  dsimp only
  repeat' split
  all_goals rfl

theorem profileCityStage_recent_tweets_list (σ : TwState) (loc : String) :
    (profileCityStage σ loc).recent_tweets_list = σ.recent_tweets_list := by
  unfold profileCityStage
  dsimp only
  repeat' split
  all_goals rfl

theorem profileCityStage_user_sentiments (σ : TwState) (loc : String) :
    (profileCityStage σ loc).user_sentiments = σ.user_sentiments := by
  unfold profileCityStage
  dsimp only
  repeat' split
  all_goals rfl

theorem profileCityStage_city_nodup (σ : TwState) (loc : String)
    (h : (σ.city_counter.map Prod.fst).Nodup) :
    ((profileCityStage σ loc).city_counter.map Prod.fst).Nodup := by
  unfold profileCityStage
  dsimp only
  repeat' split
  all_goals first
    | exact cAdd_nodup 1 h
    | exact h

theorem geoStage_positive_count (places : List (String × PlaceRec)) (σ : TwState) (t : RawTweet) :
    (geoStage places σ t).positive_count = σ.positive_count := by
  unfold geoStage
  dsimp only
  repeat' split
  all_goals rfl

theorem geoStage_trend (places : List (String × PlaceRec)) (σ : TwState) (t : RawTweet) :
    (geoStage places σ t).trend = σ.trend := by
  unfold geoStage
  dsimp only
  repeat' split
  all_goals rfl

theorem geoStage_engagements (places : List (String × PlaceRec)) (σ : TwState) (t : RawTweet) :
    (geoStage places σ t).engagements = σ.engagements := by
  unfold geoStage
  dsimp only
  repeat' split
  all_goals rfl

theorem geoStage_reach_set (places : List (String × PlaceRec)) (σ : TwState) (t : RawTweet) :
    (geoStage places σ t).reach_set = σ.reach_set := by
  unfold geoStage
  dsimp only
  repeat' split
  all_goals rfl

theorem geoStage_keywords_counter (places : List (String × PlaceRec)) (σ : TwState) (t : RawTweet) :
    (geoStage places σ t).keywords_counter = σ.keywords_counter := by
  unfold geoStage
  dsimp only
  repeat' split
  all_goals rfl

theorem geoStage_recent_tweets_list (places : List (String × PlaceRec)) (σ : TwState) (t : RawTweet) :
    (geoStage places σ t).recent_tweets_list = σ.recent_tweets_list := by
  unfold geoStage
  dsimp only
  repeat' split
  all_goals rfl

theorem geoStage_user_sentiments (places : List (String × PlaceRec)) (σ : TwState) (t : RawTweet) :
    (geoStage places σ t).user_sentiments = σ.user_sentiments := by
  unfold geoStage
  dsimp only
  repeat' split
  all_goals rfl

theorem geoStage_city_nodup (places : List (String × PlaceRec)) (σ : TwState) (t : RawTweet)
    (h : (σ.city_counter.map Prod.fst).Nodup) :
    ((geoStage places σ t).city_counter.map Prod.fst).Nodup := by
  unfold geoStage
  dsimp only
  repeat' split
  all_goals first
    | exact cAdd_nodup 1 h
    | exact h

theorem mentionStage_positive_count (now : ℚ) (σ : TwState) (t : RawTweet) (p : ℚ) (lb u : String) (pd : Option ℚ) :
    (mentionStage now σ t p lb u pd).positive_count = σ.positive_count := by
  unfold mentionStage
  dsimp only
  repeat' split
  all_goals rfl

theorem mentionStage_trend (now : ℚ) (σ : TwState) (t : RawTweet) (p : ℚ) (lb u : String) (pd : Option ℚ) :
    (mentionStage now σ t p lb u pd).trend = σ.trend := by
  unfold mentionStage
  dsimp only
  repeat' split
  all_goals rfl

theorem mentionStage_engagements (now : ℚ) (σ : TwState) (t : RawTweet) (p : ℚ) (lb u : String) (pd : Option ℚ) :
    (mentionStage now σ t p lb u pd).engagements = σ.engagements := by
  unfold mentionStage
  dsimp only
  repeat' split
  all_goals rfl

theorem mentionStage_reach_set (now : ℚ) (σ : TwState) (t : RawTweet) (p : ℚ) (lb u : String) (pd : Option ℚ) :
    (mentionStage now σ t p lb u pd).reach_set = σ.reach_set := by
  unfold mentionStage
  dsimp only
  repeat' split
  all_goals rfl

theorem mentionStage_city_counter (now : ℚ) (σ : TwState) (t : RawTweet) (p : ℚ) (lb u : String) (pd : Option ℚ) :
    (mentionStage now σ t p lb u pd).city_counter = σ.city_counter := by
  unfold mentionStage
  dsimp only
  repeat' split
  all_goals rfl

theorem mentionStage_keywords_counter (now : ℚ) (σ : TwState) (t : RawTweet) (p : ℚ) (lb u : String) (pd : Option ℚ) :
    (mentionStage now σ t p lb u pd).keywords_counter = σ.keywords_counter := by
  unfold mentionStage
  dsimp only
  repeat' split
  all_goals rfl

theorem mentionStage_user_sentiments (now : ℚ) (σ : TwState) (t : RawTweet) (p : ℚ) (lb u : String) (pd : Option ℚ) :
    (mentionStage now σ t p lb u pd).user_sentiments = σ.user_sentiments := by
  unfold mentionStage
  dsimp only
  repeat' split
  all_goals rfl

theorem keywordStage_positive_count (σ : TwState) (t : RawTweet) :
    (keywordStage σ t).positive_count = σ.positive_count := rfl

theorem keywordStage_trend (σ : TwState) (t : RawTweet) :
    (keywordStage σ t).trend = σ.trend := rfl

theorem keywordStage_engagements (σ : TwState) (t : RawTweet) :
    (keywordStage σ t).engagements = σ.engagements := rfl

theorem keywordStage_reach_set (σ : TwState) (t : RawTweet) :
    (keywordStage σ t).reach_set = σ.reach_set := rfl

theorem keywordStage_city_counter (σ : TwState) (t : RawTweet) :
    (keywordStage σ t).city_counter = σ.city_counter := rfl

theorem keywordStage_recent_tweets_list (σ : TwState) (t : RawTweet) :
    (keywordStage σ t).recent_tweets_list = σ.recent_tweets_list := rfl

theorem keywordStage_user_sentiments (σ : TwState) (t : RawTweet) :
    (keywordStage σ t).user_sentiments = σ.user_sentiments := rfl

theorem keywordStage_kw_nodup (σ : TwState) (t : RawTweet)
    (h : (σ.keywords_counter.map Prod.fst).Nodup) :
    ((keywordStage σ t).keywords_counter.map Prod.fst).Nodup := cUpdate_nodup h

theorem tAdd_positive_count (σ : TwState) (d : ℤ) (p : ℚ) :
    (tAdd σ d p).positive_count = σ.positive_count := rfl

theorem tAdd_engagements (σ : TwState) (d : ℤ) (p : ℚ) :
    (tAdd σ d p).engagements = σ.engagements := rfl

theorem tAdd_reach_set (σ : TwState) (d : ℤ) (p : ℚ) :
    (tAdd σ d p).reach_set = σ.reach_set := rfl

theorem tAdd_city_counter (σ : TwState) (d : ℤ) (p : ℚ) :
    (tAdd σ d p).city_counter = σ.city_counter := rfl

theorem tAdd_keywords_counter (σ : TwState) (d : ℤ) (p : ℚ) :
    (tAdd σ d p).keywords_counter = σ.keywords_counter := rfl

theorem tAdd_recent_tweets_list (σ : TwState) (d : ℤ) (p : ℚ) :
    (tAdd σ d p).recent_tweets_list = σ.recent_tweets_list := rfl

theorem tAdd_user_sentiments (σ : TwState) (d : ℤ) (p : ℚ) :
    (tAdd σ d p).user_sentiments = σ.user_sentiments := rfl

theorem tAdd_trend_nodup (σ : TwState) (d : ℤ) (p : ℚ)
    (h : (σ.trend.map Prod.fst).Nodup) :
    ((tAdd σ d p).trend.map Prod.fst).Nodup := dUpd_nodup _ _ h

theorem authorStage_positive_count (users : List (String × UserRec)) (σ : TwState) (t : RawTweet) (p : ℚ) :
    (authorStage users σ t p).1.positive_count = σ.positive_count := by
  unfold authorStage
  dsimp only
  repeat' split
  all_goals simp [profileCityStage_positive_count]

theorem authorStage_trend (users : List (String × UserRec)) (σ : TwState) (t : RawTweet) (p : ℚ) :
    (authorStage users σ t p).1.trend = σ.trend := by
  unfold authorStage
  dsimp only
  repeat' split
  all_goals simp [profileCityStage_trend]

theorem authorStage_keywords_counter (users : List (String × UserRec)) (σ : TwState) (t : RawTweet) (p : ℚ) :
    (authorStage users σ t p).1.keywords_counter = σ.keywords_counter := by
  unfold authorStage
  dsimp only
  repeat' split
  all_goals simp [profileCityStage_keywords_counter]

theorem authorStage_recent_tweets_list (users : List (String × UserRec)) (σ : TwState) (t : RawTweet) (p : ℚ) :
    (authorStage users σ t p).1.recent_tweets_list = σ.recent_tweets_list := by
  unfold authorStage
  dsimp only
  repeat' split
  all_goals simp [profileCityStage_recent_tweets_list]

theorem authorStage_reach_le (users : List (String × UserRec)) (σ : TwState) (t : RawTweet) (p : ℚ) :
    (authorStage users σ t p).1.reach_set.length ≤ σ.reach_set.length + 1 := by
  unfold authorStage
  dsimp only
  repeat' split
  all_goals first
    | exact Nat.le_succ _
    | (simp only [profileCityStage_reach_set]; exact sAdd_length_le _ _)

theorem authorStage_city_nodup (users : List (String × UserRec)) (σ : TwState) (t : RawTweet) (p : ℚ)
    (h : (σ.city_counter.map Prod.fst).Nodup) :
    ((authorStage users σ t p).1.city_counter.map Prod.fst).Nodup := by
  unfold authorStage
  dsimp only
  repeat' split
  all_goals first
    | exact h
    | exact profileCityStage_city_nodup _ _ h

theorem authorStage_us_nodup (users : List (String × UserRec)) (σ : TwState) (t : RawTweet) (p : ℚ)
    (h : (σ.user_sentiments.map Prod.fst).Nodup) :
    ((authorStage users σ t p).1.user_sentiments.map Prod.fst).Nodup := by
  unfold authorStage
  dsimp only
  repeat' split
  all_goals first
    | exact h
    | (simp only [profileCityStage_user_sentiments]; exact dUpd_nodup _ _ h)

/-! ## Composite per-tweet lemmas (Twitter) -/

theorem procTweetRest_positive_count (pol : String → ℚ) (now : ℚ)
    (users : List (String × UserRec)) (places : List (String × PlaceRec))
    (σ : TwState) (t : RawTweet) (p : ℚ) (lb : String) (pd : Option ℚ) :
    (procTweetRest pol now users places σ t p lb pd).positive_count = σ.positive_count := by
  unfold procTweetRest
  rw [keywordStage_positive_count, mentionStage_positive_count, geoStage_positive_count,
    authorStage_positive_count]

theorem procTweetRest_trend (pol : String → ℚ) (now : ℚ)
    (users : List (String × UserRec)) (places : List (String × PlaceRec))
    (σ : TwState) (t : RawTweet) (p : ℚ) (lb : String) (pd : Option ℚ) :
    (procTweetRest pol now users places σ t p lb pd).trend = σ.trend := by
  unfold procTweetRest
  rw [keywordStage_trend, mentionStage_trend, geoStage_trend, authorStage_trend]

theorem procTweetRest_reach_le (pol : String → ℚ) (now : ℚ)
    (users : List (String × UserRec)) (places : List (String × PlaceRec))
    (σ : TwState) (t : RawTweet) (p : ℚ) (lb : String) (pd : Option ℚ) :
    (procTweetRest pol now users places σ t p lb pd).reach_set.length ≤
      σ.reach_set.length + 1 := by
  unfold procTweetRest
  rw [keywordStage_reach_set, mentionStage_reach_set, geoStage_reach_set]
  exact authorStage_reach_le users σ t p

theorem procTweet_positive_count (pol : String → ℚ) (now : ℚ)
    (users : List (String × UserRec)) (places : List (String × PlaceRec))
    (σ : TwState) (t : RawTweet) :
    (procTweet pol now users places σ t).positive_count =
      σ.positive_count + (if 0 < pol t.text then 1 else 0) := by
  unfold procTweet
  dsimp only
  cases t.created_at <;>
    simp only [procTweetRest_positive_count, tAdd_positive_count] <;>
    by_cases hp : 0 < pol t.text <;>
    simp [hp]

theorem procTweet_reach_le (pol : String → ℚ) (now : ℚ)
    (users : List (String × UserRec)) (places : List (String × PlaceRec))
    (σ : TwState) (t : RawTweet) :
    (procTweet pol now users places σ t).reach_set.length ≤ σ.reach_set.length + 1 := by
  unfold procTweet
  dsimp only
  have hr : (if 0 < pol t.text then { σ with positive_count := σ.positive_count + 1 }
      else σ).reach_set = σ.reach_set := by
    split <;> rfl
  cases t.created_at
  case nonString =>
    rw [hr]
    exact Nat.le_succ _
  case absent =>
    exact le_trans (procTweetRest_reach_le _ _ _ _ _ _ _ _ _) (by rw [hr])
  case parseable dt =>
    exact le_trans (procTweetRest_reach_le _ _ _ _ _ _ _ _ _) (by rw [tAdd_reach_set, hr])
  case unparseable =>
    exact le_trans (procTweetRest_reach_le _ _ _ _ _ _ _ _ _) (by rw [tAdd_reach_set, hr])

theorem procTweetRest_city_nodup (pol : String → ℚ) (now : ℚ)
    (users : List (String × UserRec)) (places : List (String × PlaceRec))
    (σ : TwState) (t : RawTweet) (p : ℚ) (lb : String) (pd : Option ℚ)
    (h : (σ.city_counter.map Prod.fst).Nodup) :
    ((procTweetRest pol now users places σ t p lb pd).city_counter.map Prod.fst).Nodup := by
  unfold procTweetRest
  rw [keywordStage_city_counter, mentionStage_city_counter]
  exact geoStage_city_nodup _ _ _ (authorStage_city_nodup _ _ _ _ h)

theorem procTweetRest_kw_nodup (pol : String → ℚ) (now : ℚ)
    (users : List (String × UserRec)) (places : List (String × PlaceRec))
    (σ : TwState) (t : RawTweet) (p : ℚ) (lb : String) (pd : Option ℚ)
    (h : (σ.keywords_counter.map Prod.fst).Nodup) :
    ((procTweetRest pol now users places σ t p lb pd).keywords_counter.map Prod.fst).Nodup := by
  unfold procTweetRest
  refine keywordStage_kw_nodup _ _ ?_
  rw [mentionStage_keywords_counter, geoStage_keywords_counter, authorStage_keywords_counter]
  exact h

theorem procTweetRest_us_nodup (pol : String → ℚ) (now : ℚ)
    (users : List (String × UserRec)) (places : List (String × PlaceRec))
    (σ : TwState) (t : RawTweet) (p : ℚ) (lb : String) (pd : Option ℚ)
    (h : (σ.user_sentiments.map Prod.fst).Nodup) :
    ((procTweetRest pol now users places σ t p lb pd).user_sentiments.map Prod.fst).Nodup := by
  unfold procTweetRest
  rw [keywordStage_user_sentiments, mentionStage_user_sentiments, geoStage_user_sentiments]
  exact authorStage_us_nodup _ _ _ _ h

theorem procTweetRest_trend_nodup (pol : String → ℚ) (now : ℚ)
    (users : List (String × UserRec)) (places : List (String × PlaceRec))
    (σ : TwState) (t : RawTweet) (p : ℚ) (lb : String) (pd : Option ℚ)
    (h : (σ.trend.map Prod.fst).Nodup) :
    ((procTweetRest pol now users places σ t p lb pd).trend.map Prod.fst).Nodup := by
  rw [procTweetRest_trend]
  exact h

/-- All four key-distinctness invariants of the Twitter tallies, preserved by
one loop iteration. -/
theorem procTweet_nodups (pol : String → ℚ) (now : ℚ)
    (users : List (String × UserRec)) (places : List (String × PlaceRec))
    (σ : TwState) (t : RawTweet)
    (h1 : (σ.trend.map Prod.fst).Nodup) (h2 : (σ.city_counter.map Prod.fst).Nodup)
    (h3 : (σ.keywords_counter.map Prod.fst).Nodup)
    (h4 : (σ.user_sentiments.map Prod.fst).Nodup) :
    ((procTweet pol now users places σ t).trend.map Prod.fst).Nodup ∧
    ((procTweet pol now users places σ t).city_counter.map Prod.fst).Nodup ∧
    ((procTweet pol now users places σ t).keywords_counter.map Prod.fst).Nodup ∧
    ((procTweet pol now users places σ t).user_sentiments.map Prod.fst).Nodup := by
  unfold procTweet
  dsimp only
  generalize hg : (if 0 < pol t.text then { σ with positive_count := σ.positive_count + 1 }
    else σ) = σ1
  have e1 : σ1.trend = σ.trend := by rw [← hg]; split <;> rfl
  have e2 : σ1.city_counter = σ.city_counter := by rw [← hg]; split <;> rfl
  have e3 : σ1.keywords_counter = σ.keywords_counter := by rw [← hg]; split <;> rfl
  have e4 : σ1.user_sentiments = σ.user_sentiments := by rw [← hg]; split <;> rfl
  have k1 : (σ1.trend.map Prod.fst).Nodup := by rw [e1]; exact h1
  have k2 : (σ1.city_counter.map Prod.fst).Nodup := by rw [e2]; exact h2
  have k3 : (σ1.keywords_counter.map Prod.fst).Nodup := by rw [e3]; exact h3
  have k4 : (σ1.user_sentiments.map Prod.fst).Nodup := by rw [e4]; exact h4
  have kt1 : ∀ d p, ((tAdd σ1 d p).trend.map Prod.fst).Nodup :=
    fun d p => tAdd_trend_nodup _ _ _ k1
  have kt2 : ∀ d p, ((tAdd σ1 d p).city_counter.map Prod.fst).Nodup :=
    fun d p => by rw [tAdd_city_counter]; exact k2
  have kt3 : ∀ d p, ((tAdd σ1 d p).keywords_counter.map Prod.fst).Nodup :=
    fun d p => by rw [tAdd_keywords_counter]; exact k3
  have kt4 : ∀ d p, ((tAdd σ1 d p).user_sentiments.map Prod.fst).Nodup :=
    fun d p => by rw [tAdd_user_sentiments]; exact k4
  cases t.created_at
  case nonString => exact ⟨k1, k2, k3, k4⟩
  case absent =>
    exact ⟨procTweetRest_trend_nodup _ _ _ _ _ _ _ _ _ k1,
      procTweetRest_city_nodup _ _ _ _ _ _ _ _ _ k2,
      procTweetRest_kw_nodup _ _ _ _ _ _ _ _ _ k3,
      procTweetRest_us_nodup _ _ _ _ _ _ _ _ _ k4⟩
  case parseable dt =>
    exact ⟨procTweetRest_trend_nodup _ _ _ _ _ _ _ _ _ (kt1 _ _),
      procTweetRest_city_nodup _ _ _ _ _ _ _ _ _ (kt2 _ _),
      procTweetRest_kw_nodup _ _ _ _ _ _ _ _ _ (kt3 _ _),
      procTweetRest_us_nodup _ _ _ _ _ _ _ _ _ (kt4 _ _)⟩
  case unparseable =>
    exact ⟨procTweetRest_trend_nodup _ _ _ _ _ _ _ _ _ (kt1 _ _),
      procTweetRest_city_nodup _ _ _ _ _ _ _ _ _ (kt2 _ _),
      procTweetRest_kw_nodup _ _ _ _ _ _ _ _ _ (kt3 _ _),
      procTweetRest_us_nodup _ _ _ _ _ _ _ _ _ (kt4 _ _)⟩

/-! ## Fold-level lemmas (Twitter) -/

theorem foldl_procTweet_positive (pol : String → ℚ) (now : ℚ)
    (users : List (String × UserRec)) (places : List (String × PlaceRec)) :
    ∀ (tweets : List RawTweet) (σ : TwState),
    (tweets.foldl (procTweet pol now users places) σ).positive_count =
      σ.positive_count + tweets.countP (fun t => decide (0 < pol t.text))
  | [], σ => by simp
  | t :: rest, σ => by
    rw [List.foldl_cons, foldl_procTweet_positive pol now users places rest,
      procTweet_positive_count, List.countP_cons]
    by_cases hp : 0 < pol t.text <;> simp [hp] <;> omega

theorem foldl_procTweet_reach (pol : String → ℚ) (now : ℚ)
    (users : List (String × UserRec)) (places : List (String × PlaceRec)) :
    ∀ (tweets : List RawTweet) (σ : TwState),
    (tweets.foldl (procTweet pol now users places) σ).reach_set.length ≤
      σ.reach_set.length + tweets.length
  | [], σ => by simp
  | t :: rest, σ => by
    rw [List.foldl_cons]
    refine le_trans (foldl_procTweet_reach pol now users places rest _) ?_
    have := procTweet_reach_le pol now users places σ t
    simp only [List.length_cons]
    omega

theorem foldl_procTweet_nodups (pol : String → ℚ) (now : ℚ)
    (users : List (String × UserRec)) (places : List (String × PlaceRec)) :
    ∀ (tweets : List RawTweet) (σ : TwState),
    (σ.trend.map Prod.fst).Nodup → (σ.city_counter.map Prod.fst).Nodup →
    (σ.keywords_counter.map Prod.fst).Nodup → (σ.user_sentiments.map Prod.fst).Nodup →
    ((tweets.foldl (procTweet pol now users places) σ).trend.map Prod.fst).Nodup ∧
    ((tweets.foldl (procTweet pol now users places) σ).city_counter.map Prod.fst).Nodup ∧
    ((tweets.foldl (procTweet pol now users places) σ).keywords_counter.map Prod.fst).Nodup ∧
    ((tweets.foldl (procTweet pol now users places) σ).user_sentiments.map Prod.fst).Nodup
  | [], σ, h1, h2, h3, h4 => ⟨h1, h2, h3, h4⟩
  | t :: rest, σ, h1, h2, h3, h4 => by
    rw [List.foldl_cons]
    obtain ⟨g1, g2, g3, g4⟩ := procTweet_nodups pol now users places σ t h1 h2 h3 h4
    exact foldl_procTweet_nodups pol now users places rest _ g1 g2 g3 g4

/-! ## Per-field effect lemmas for the Instagram loop stages -/

/-- Folding a key-distinctness-preserving counter update preserves
key-distinctness. -/
theorem foldl_preserve_nodup {α K : Type} [DecidableEq K]
    (f : List (K × ℕ) → α → List (K × ℕ))
    (hf : ∀ c a, (c.map Prod.fst).Nodup → ((f c a).map Prod.fst).Nodup) :
    ∀ (l : List α) (c : List (K × ℕ)),
      (c.map Prod.fst).Nodup → ((l.foldl f c).map Prod.fst).Nodup
  | [], c, h => h
  | a :: rest, c, h => foldl_preserve_nodup f hf rest (f c a) (hf c a h)

theorem igKeywordStep_nodup (kc : List (String × ℕ)) (hashtags : List String)
    (caption : String) (h : (kc.map Prod.fst).Nodup) :
    ((igKeywordStep kc hashtags caption).map Prod.fst).Nodup := by
  unfold igKeywordStep
  split
  · refine foldl_preserve_nodup _ (fun c w hc => cAdd_nodup 1 hc) _ _ ?_
    refine foldl_preserve_nodup _ ?_ _ _ ?_
    · intro c a hc
      dsimp only
      split
      · exact cAdd_nodup 2 hc
      · exact hc
    · refine foldl_preserve_nodup _ ?_ _ _ h
      intro c a hc
      dsimp only
      split
      · exact cAdd_nodup 3 hc
      · exact hc
  · exact h

theorem igEngStage_positive_count (σ : IgState) (likes te : ℤ) :
    (igEngStage σ likes te).positive_count = σ.positive_count := by
  unfold igEngStage
  try dsimp only
  repeat' split
  all_goals rfl

theorem igEngStage_trend (σ : IgState) (likes te : ℤ) :
    (igEngStage σ likes te).trend = σ.trend := by
  unfold igEngStage
  try dsimp only
  repeat' split
  all_goals rfl

theorem igEngStage_reach_set (σ : IgState) (likes te : ℤ) :
    (igEngStage σ likes te).reach_set = σ.reach_set := by
  unfold igEngStage
  try dsimp only
  repeat' split
  all_goals rfl

theorem igEngStage_city_counter (σ : IgState) (likes te : ℤ) :
    (igEngStage σ likes te).city_counter = σ.city_counter := by
  unfold igEngStage
  try dsimp only
  repeat' split
  all_goals rfl

theorem igEngStage_keywords_counter (σ : IgState) (likes te : ℤ) :
    (igEngStage σ likes te).keywords_counter = σ.keywords_counter := by
  unfold igEngStage
  try dsimp only
  repeat' split
  all_goals rfl

theorem igEngStage_recent_posts_list (σ : IgState) (likes te : ℤ) :
    (igEngStage σ likes te).recent_posts_list = σ.recent_posts_list := by
  unfold igEngStage
  try dsimp only
  repeat' split
  all_goals rfl

theorem igEngStage_user_sentiments (σ : IgState) (likes te : ℤ) :
    (igEngStage σ likes te).user_sentiments = σ.user_sentiments := by
  unfold igEngStage
  try dsimp only
  repeat' split
  all_goals rfl

theorem igReachStage_positive_count (σ : IgState) (oid u : String) :
    (igReachStage σ oid u).positive_count = σ.positive_count := by
  unfold igReachStage
  try dsimp only
  repeat' split
  all_goals rfl

theorem igReachStage_trend (σ : IgState) (oid u : String) :
    (igReachStage σ oid u).trend = σ.trend := by
  unfold igReachStage
  try dsimp only
  repeat' split
  all_goals rfl

theorem igReachStage_engagements (σ : IgState) (oid u : String) :
    (igReachStage σ oid u).engagements = σ.engagements := by
  unfold igReachStage
  try dsimp only
  repeat' split
  all_goals rfl

theorem igReachStage_city_counter (σ : IgState) (oid u : String) :
    (igReachStage σ oid u).city_counter = σ.city_counter := by
  unfold igReachStage
  try dsimp only
  repeat' split
  all_goals rfl

theorem igReachStage_keywords_counter (σ : IgState) (oid u : String) :
    (igReachStage σ oid u).keywords_counter = σ.keywords_counter := by
  unfold igReachStage
  try dsimp only
  repeat' split
  all_goals rfl

theorem igReachStage_recent_posts_list (σ : IgState) (oid u : String) :
    (igReachStage σ oid u).recent_posts_list = σ.recent_posts_list := by
  unfold igReachStage
  try dsimp only
  repeat' split
  all_goals rfl

theorem igReachStage_user_sentiments (σ : IgState) (oid u : String) :
    (igReachStage σ oid u).user_sentiments = σ.user_sentiments := by
  unfold igReachStage
  try dsimp only
  repeat' split
  all_goals rfl

theorem igReachStage_reach_le (σ : IgState) (oid u : String) :
    (igReachStage σ oid u).reach_set.length ≤ σ.reach_set.length + 1 := by
  unfold igReachStage
  try dsimp only
  repeat' split
  all_goals first
    | exact sAdd_length_le _ _
    | exact Nat.le_succ _

theorem igInflStage_positive_count (σ : IgState) (u : String) (p : ℚ) (te likes : ℤ) :
    (igInflStage σ u p te likes).positive_count = σ.positive_count := by
  unfold igInflStage
  try dsimp only
  repeat' split
  all_goals rfl

theorem igInflStage_trend (σ : IgState) (u : String) (p : ℚ) (te likes : ℤ) :
    (igInflStage σ u p te likes).trend = σ.trend := by
  unfold igInflStage
  try dsimp only
  repeat' split
  all_goals rfl

theorem igInflStage_engagements (σ : IgState) (u : String) (p : ℚ) (te likes : ℤ) :
    (igInflStage σ u p te likes).engagements = σ.engagements := by
  unfold igInflStage
  try dsimp only
  repeat' split
  all_goals rfl

theorem igInflStage_reach_set (σ : IgState) (u : String) (p : ℚ) (te likes : ℤ) :
    (igInflStage σ u p te likes).reach_set = σ.reach_set := by
  unfold igInflStage
  try dsimp only
  repeat' split
  all_goals rfl

theorem igInflStage_city_counter (σ : IgState) (u : String) (p : ℚ) (te likes : ℤ) :
    (igInflStage σ u p te likes).city_counter = σ.city_counter := by
  unfold igInflStage
  try dsimp only
  repeat' split
  all_goals rfl

theorem igInflStage_keywords_counter (σ : IgState) (u : String) (p : ℚ) (te likes : ℤ) :
    (igInflStage σ u p te likes).keywords_counter = σ.keywords_counter := by
  unfold igInflStage
  try dsimp only
  repeat' split
  all_goals rfl

theorem igInflStage_recent_posts_list (σ : IgState) (u : String) (p : ℚ) (te likes : ℤ) :
    (igInflStage σ u p te likes).recent_posts_list = σ.recent_posts_list := by
  unfold igInflStage
  try dsimp only
  repeat' split
  all_goals rfl

theorem igInflStage_us_nodup (σ : IgState) (u : String) (p : ℚ) (te likes : ℤ)
    (h : (σ.user_sentiments.map Prod.fst).Nodup) :
    ((igInflStage σ u p te likes).user_sentiments.map Prod.fst).Nodup := by
  unfold igInflStage
  split
  · exact dUpd_nodup _ _ h
  · exact h

theorem igLocStage_positive_count (σ : IgState) (ln : Option LocVal) :
    (igLocStage σ ln).positive_count = σ.positive_count := by
  unfold igLocStage
  try dsimp only
  repeat' split
  all_goals rfl

theorem igLocStage_trend (σ : IgState) (ln : Option LocVal) :
    (igLocStage σ ln).trend = σ.trend := by
  unfold igLocStage
  try dsimp only
  repeat' split
  all_goals rfl

theorem igLocStage_engagements (σ : IgState) (ln : Option LocVal) :
    (igLocStage σ ln).engagements = σ.engagements := by
  unfold igLocStage
  try dsimp only
  repeat' split
  all_goals rfl

theorem igLocStage_reach_set (σ : IgState) (ln : Option LocVal) :
    (igLocStage σ ln).reach_set = σ.reach_set := by
  unfold igLocStage
  try dsimp only
  repeat' split
  all_goals rfl

theorem igLocStage_keywords_counter (σ : IgState) (ln : Option LocVal) :
    (igLocStage σ ln).keywords_counter = σ.keywords_counter := by
  unfold igLocStage
  try dsimp only
  repeat' split
  all_goals rfl

theorem igLocStage_recent_posts_list (σ : IgState) (ln : Option LocVal) :
    (igLocStage σ ln).recent_posts_list = σ.recent_posts_list := by
  unfold igLocStage
  try dsimp only
  repeat' split
  all_goals rfl

theorem igLocStage_user_sentiments (σ : IgState) (ln : Option LocVal) :
    (igLocStage σ ln).user_sentiments = σ.user_sentiments := by
  unfold igLocStage
  try dsimp only
  repeat' split
  all_goals rfl

theorem igLocStage_city_nodup (σ : IgState) (ln : Option LocVal)
    (h : (σ.city_counter.map Prod.fst).Nodup) :
    ((igLocStage σ ln).city_counter.map Prod.fst).Nodup := by
  unfold igLocStage
  try dsimp only
  repeat' split
  all_goals first
    | exact cAdd_nodup 1 h
    | exact h

theorem igMentionStage_positive_count (now : ℚ) (σ : IgState) (u cap : String) (p : ℚ) (lb : String) (pd : Option ℚ) :
    (igMentionStage now σ u cap p lb pd).positive_count = σ.positive_count := by
  unfold igMentionStage
  try dsimp only
  repeat' split
  all_goals rfl

theorem igMentionStage_trend (now : ℚ) (σ : IgState) (u cap : String) (p : ℚ) (lb : String) (pd : Option ℚ) :
    (igMentionStage now σ u cap p lb pd).trend = σ.trend := by
  unfold igMentionStage
  try dsimp only
  repeat' split
  all_goals rfl

theorem igMentionStage_engagements (now : ℚ) (σ : IgState) (u cap : String) (p : ℚ) (lb : String) (pd : Option ℚ) :
    (igMentionStage now σ u cap p lb pd).engagements = σ.engagements := by
  unfold igMentionStage
  try dsimp only
  repeat' split
  all_goals rfl

theorem igMentionStage_reach_set (now : ℚ) (σ : IgState) (u cap : String) (p : ℚ) (lb : String) (pd : Option ℚ) :
    (igMentionStage now σ u cap p lb pd).reach_set = σ.reach_set := by
  unfold igMentionStage
  try dsimp only
  repeat' split
  all_goals rfl

theorem igMentionStage_city_counter (now : ℚ) (σ : IgState) (u cap : String) (p : ℚ) (lb : String) (pd : Option ℚ) :
    (igMentionStage now σ u cap p lb pd).city_counter = σ.city_counter := by
  unfold igMentionStage
  try dsimp only
  repeat' split
  all_goals rfl

theorem igMentionStage_keywords_counter (now : ℚ) (σ : IgState) (u cap : String) (p : ℚ) (lb : String) (pd : Option ℚ) :
    (igMentionStage now σ u cap p lb pd).keywords_counter = σ.keywords_counter := by
  unfold igMentionStage
  try dsimp only
  repeat' split
  all_goals rfl

theorem igMentionStage_user_sentiments (now : ℚ) (σ : IgState) (u cap : String) (p : ℚ) (lb : String) (pd : Option ℚ) :
    (igMentionStage now σ u cap p lb pd).user_sentiments = σ.user_sentiments := by
  unfold igMentionStage
  try dsimp only
  repeat' split
  all_goals rfl

theorem igDateStage_positive_count (now : ℚ) (σ : IgState) (ts : IgTs) (p : ℚ) :
    ((igDateStage now σ ts p).1).positive_count = σ.positive_count := by
  unfold igDateStage
  cases ts <;> try rfl
  case strParse r => cases r <;> rfl
  case numTs r => cases r <;> rfl

theorem igDateStage_engagements (now : ℚ) (σ : IgState) (ts : IgTs) (p : ℚ) :
    ((igDateStage now σ ts p).1).engagements = σ.engagements := by
  unfold igDateStage
  cases ts <;> try rfl
  case strParse r => cases r <;> rfl
  case numTs r => cases r <;> rfl

theorem igDateStage_reach_set (now : ℚ) (σ : IgState) (ts : IgTs) (p : ℚ) :
    ((igDateStage now σ ts p).1).reach_set = σ.reach_set := by
  unfold igDateStage
  cases ts <;> try rfl
  case strParse r => cases r <;> rfl
  case numTs r => cases r <;> rfl

theorem igDateStage_city_counter (now : ℚ) (σ : IgState) (ts : IgTs) (p : ℚ) :
    ((igDateStage now σ ts p).1).city_counter = σ.city_counter := by
  unfold igDateStage
  cases ts <;> try rfl
  case strParse r => cases r <;> rfl
  case numTs r => cases r <;> rfl

theorem igDateStage_keywords_counter (now : ℚ) (σ : IgState) (ts : IgTs) (p : ℚ) :
    ((igDateStage now σ ts p).1).keywords_counter = σ.keywords_counter := by
  unfold igDateStage
  cases ts <;> try rfl
  case strParse r => cases r <;> rfl
  case numTs r => cases r <;> rfl

theorem igDateStage_recent_posts_list (now : ℚ) (σ : IgState) (ts : IgTs) (p : ℚ) :
    ((igDateStage now σ ts p).1).recent_posts_list = σ.recent_posts_list := by
  unfold igDateStage
  cases ts <;> try rfl
  case strParse r => cases r <;> rfl
  case numTs r => cases r <;> rfl

theorem igDateStage_user_sentiments (now : ℚ) (σ : IgState) (ts : IgTs) (p : ℚ) :
    ((igDateStage now σ ts p).1).user_sentiments = σ.user_sentiments := by
  unfold igDateStage
  cases ts <;> try rfl
  case strParse r => cases r <;> rfl
  case numTs r => cases r <;> rfl

theorem igDateStage_trend_nodup (now : ℚ) (σ : IgState) (ts : IgTs) (p : ℚ)
    (h : (σ.trend.map Prod.fst).Nodup) :
    (((igDateStage now σ ts p).1).trend.map Prod.fst).Nodup := by
  unfold igDateStage
  have : ∀ d, (((tAddIg σ d p).trend).map Prod.fst).Nodup := fun d => dUpd_nodup _ _ h
  cases ts
  case absent => exact this _
  case strParse r => cases r <;> exact this _
  case numTs r => cases r <;> exact this _
  case otherType => exact h

/-! ## Composite per-post lemmas (Instagram) -/

theorem procPost_positive_count (pol : String → ℚ) (now : ℚ) (σ : IgState) (post : RawPost) :
    (procPost pol now σ post).positive_count = σ.positive_count +
      (if post.caption.getD "" ≠ "" ∧ 0 < pol (post.caption.getD "") then 1 else 0) := by
  unfold procPost
  dsimp only
  simp only [igMentionStage_positive_count, igLocStage_positive_count,
    igInflStage_positive_count, igReachStage_positive_count, igEngStage_positive_count,
    igDateStage_positive_count]
  by_cases hc : post.caption.getD "" ≠ "" <;> by_cases hp : 0 < pol (post.caption.getD "") <;>
    simp [hc, hp]

theorem procPost_reach_le (pol : String → ℚ) (now : ℚ) (σ : IgState) (post : RawPost) :
    (procPost pol now σ post).reach_set.length ≤ σ.reach_set.length + 1 := by
  unfold procPost
  dsimp only
  generalize hg : (if post.caption.getD "" ≠ "" ∧
      0 < (if post.caption.getD "" ≠ "" then pol (post.caption.getD "") else 0) then
      { σ with positive_count := σ.positive_count + 1 } else σ) = σ1
  have er : σ1.reach_set = σ.reach_set := by
    rw [← hg]
    repeat' split
    all_goals rfl
  simp only [igMentionStage_reach_set, igLocStage_reach_set, igInflStage_reach_set]
  refine le_trans (igReachStage_reach_le _ _ _) ?_
  simp only [igEngStage_reach_set, igDateStage_reach_set, er]
  exact le_refl _

theorem procPost_nodups (pol : String → ℚ) (now : ℚ) (σ : IgState) (post : RawPost)
    (h1 : (σ.trend.map Prod.fst).Nodup) (h2 : (σ.city_counter.map Prod.fst).Nodup)
    (h3 : (σ.keywords_counter.map Prod.fst).Nodup)
    (h4 : (σ.user_sentiments.map Prod.fst).Nodup) :
    ((procPost pol now σ post).trend.map Prod.fst).Nodup ∧
    ((procPost pol now σ post).city_counter.map Prod.fst).Nodup ∧
    ((procPost pol now σ post).keywords_counter.map Prod.fst).Nodup ∧
    ((procPost pol now σ post).user_sentiments.map Prod.fst).Nodup := by
  unfold procPost
  dsimp only
  generalize hg : (if post.caption.getD "" ≠ "" ∧
      0 < (if post.caption.getD "" ≠ "" then pol (post.caption.getD "") else 0) then
      { σ with positive_count := σ.positive_count + 1 } else σ) = σ1
  have e1 : σ1.trend = σ.trend := by
    rw [← hg]
    repeat' split
    all_goals rfl
  have e2 : σ1.city_counter = σ.city_counter := by
    rw [← hg]
    repeat' split
    all_goals rfl
  have e3 : σ1.keywords_counter = σ.keywords_counter := by
    rw [← hg]
    repeat' split
    all_goals rfl
  have e4 : σ1.user_sentiments = σ.user_sentiments := by
    rw [← hg]
    repeat' split
    all_goals rfl
  refine ⟨?_, ?_, ?_, ?_⟩
  · simp only [igMentionStage_trend, igLocStage_trend, igInflStage_trend,
      igReachStage_trend, igEngStage_trend]
    refine igDateStage_trend_nodup _ _ _ _ ?_
    rw [e1]; exact h1
  · simp only [igMentionStage_city_counter]
    refine igLocStage_city_nodup _ _ ?_
    simp only [igInflStage_city_counter, igReachStage_city_counter, igEngStage_city_counter,
      igDateStage_city_counter, e2]
    exact h2
  · refine igKeywordStep_nodup _ _ _ ?_
    simp only [igMentionStage_keywords_counter, igLocStage_keywords_counter,
      igInflStage_keywords_counter, igReachStage_keywords_counter, igEngStage_keywords_counter,
      igDateStage_keywords_counter, e3]
    exact h3
  · simp only [igMentionStage_user_sentiments, igLocStage_user_sentiments]
    refine igInflStage_us_nodup _ _ _ _ _ ?_
    simp only [igReachStage_user_sentiments, igEngStage_user_sentiments,
      igDateStage_user_sentiments, e4]
    exact h4

/-! ## Fold-level lemmas (Instagram) -/

theorem foldl_procPost_positive (pol : String → ℚ) (now : ℚ) :
    ∀ (posts : List RawPost) (σ : IgState),
    (posts.foldl (procPost pol now) σ).positive_count =
      σ.positive_count + posts.countP
        (fun post => decide (post.caption.getD "" ≠ "" ∧ 0 < pol (post.caption.getD "")))
  | [], σ => by simp
  | post :: rest, σ => by
    rw [List.foldl_cons, foldl_procPost_positive pol now rest,
      procPost_positive_count, List.countP_cons]
    by_cases hc : post.caption.getD "" ≠ "" ∧ 0 < pol (post.caption.getD "") <;>
      simp [hc] <;> omega

theorem foldl_procPost_reach (pol : String → ℚ) (now : ℚ) :
    ∀ (posts : List RawPost) (σ : IgState),
    (posts.foldl (procPost pol now) σ).reach_set.length ≤
      σ.reach_set.length + posts.length
  | [], σ => by simp
  | post :: rest, σ => by
    rw [List.foldl_cons]
    refine le_trans (foldl_procPost_reach pol now rest _) ?_
    have := procPost_reach_le pol now σ post
    simp only [List.length_cons]
    omega

theorem foldl_procPost_nodups (pol : String → ℚ) (now : ℚ) :
    ∀ (posts : List RawPost) (σ : IgState),
    (σ.trend.map Prod.fst).Nodup → (σ.city_counter.map Prod.fst).Nodup →
    (σ.keywords_counter.map Prod.fst).Nodup → (σ.user_sentiments.map Prod.fst).Nodup →
    ((posts.foldl (procPost pol now) σ).trend.map Prod.fst).Nodup ∧
    ((posts.foldl (procPost pol now) σ).city_counter.map Prod.fst).Nodup ∧
    ((posts.foldl (procPost pol now) σ).keywords_counter.map Prod.fst).Nodup ∧
    ((posts.foldl (procPost pol now) σ).user_sentiments.map Prod.fst).Nodup
  | [], σ, h1, h2, h3, h4 => ⟨h1, h2, h3, h4⟩
  | post :: rest, σ, h1, h2, h3, h4 => by
    rw [List.foldl_cons]
    obtain ⟨g1, g2, g3, g4⟩ := procPost_nodups pol now σ post h1 h2 h3 h4
    exact foldl_procPost_nodups pol now rest _ g1 g2 g3 g4

/-! ## Claim C3: the empty batch -/

/-- C3: `aggregate` on an empty batch returns a Summary with all counts and
rates zero, an empty trend, all ranked lists empty, and `error` unset — in
both the Twitter and the Instagram aggregator. -/
theorem c3_empty_batch (pol : String → ℚ) (now : ℚ)
    (users : List (String × UserRec)) (places : List (String × PlaceRec)) :
    analyze pol now users places [] = ⟨0, 0, 0, 0, [], [], [], [], [], none⟩ ∧
    analyze_instagram pol now [] = ⟨0, 0, 0, 0, [], [], [], [], [], none⟩ :=
  ⟨rfl, rfl⟩

/-! ## Claim C4: output bounds -/

/-- C4: for every batch, the Summary satisfies
`0 ≤ positive_sentiment_percent ≤ 100`, `len(top_locations) ≤ 5`,
`len(top_keywords) ≤ 10`, `len(recent_mentions) ≤ 5`, and
`len(top_influencers) ≤ 5` — in both aggregators. -/
theorem c4_summary_bounds :
    (∀ (pol : String → ℚ) (now : ℚ) (users : List (String × UserRec))
      (places : List (String × PlaceRec)) (tweets : List RawTweet),
      0 ≤ (analyze pol now users places tweets).positive_sentiment_percent ∧
      (analyze pol now users places tweets).positive_sentiment_percent ≤ 100 ∧
      (analyze pol now users places tweets).top_locations.length ≤ 5 ∧
      (analyze pol now users places tweets).top_keywords.length ≤ 10 ∧
      (analyze pol now users places tweets).recent_mentions.length ≤ 5 ∧
      (analyze pol now users places tweets).top_influencers.length ≤ 5) ∧
    (∀ (pol : String → ℚ) (now : ℚ) (posts : List RawPost),
      0 ≤ (analyze_instagram pol now posts).positive_sentiment_percent ∧
      (analyze_instagram pol now posts).positive_sentiment_percent ≤ 100 ∧
      (analyze_instagram pol now posts).top_locations.length ≤ 5 ∧
      (analyze_instagram pol now posts).top_keywords.length ≤ 10 ∧
      (analyze_instagram pol now posts).recent_mentions.length ≤ 5 ∧
      (analyze_instagram pol now posts).top_influencers.length ≤ 5) := by
  constructor
  · intro pol now users places tweets
    by_cases h : tweets.length = 0
    · unfold analyze
      rw [if_pos h]
      refine ⟨le_refl _, by norm_num [emptyResponse], by simp [emptyResponse],
        by simp [emptyResponse], by simp [emptyResponse], by simp [emptyResponse]⟩
    · unfold analyze
      rw [if_neg h]
      dsimp only
      have hlen : 0 < tweets.length := Nat.pos_of_ne_zero h
      rw [if_pos hlen]
      have hpos := foldl_procTweet_positive pol now users places tweets twInit
      have hle : (tweets.foldl (procTweet pol now users places) twInit).positive_count ≤
          tweets.length := by
        rw [hpos]
        simp only [twInit]
        simpa using List.countP_le_length _
      have hq0 : (0 : ℚ) ≤
          ((tweets.foldl (procTweet pol now users places) twInit).positive_count : ℚ) /
            (tweets.length : ℚ) * 100 := by
        positivity
      have hq100 :
          ((tweets.foldl (procTweet pol now users places) twInit).positive_count : ℚ) /
            (tweets.length : ℚ) * 100 ≤ ((100 : ℤ) : ℚ) := by
        have hc : ((tweets.foldl (procTweet pol now users places) twInit).positive_count : ℚ) ≤
            (tweets.length : ℚ) := by exact_mod_cast hle
        have hp : (0 : ℚ) < (tweets.length : ℚ) := by exact_mod_cast hlen
        have : ((tweets.foldl (procTweet pol now users places) twInit).positive_count : ℚ) /
            (tweets.length : ℚ) ≤ 1 := by
          rw [div_le_one hp]
          exact hc
        push_cast
        nlinarith
      refine ⟨pyRound_nonneg 2 hq0, ?_, ?_, ?_, ?_, ?_⟩
      · have := pyRound_le_int 2 hq100
        exact le_trans this (by norm_num)
      · simp only [List.length_map, most_common]
        exact List.length_take_le _ _
      · simp only [List.length_map, most_common]
        exact List.length_take_le _ _
      · exact List.length_take_le _ _
      · exact List.length_take_le _ _
  · intro pol now posts
    by_cases h : posts.length = 0
    · unfold analyze_instagram
      rw [if_pos h]
      refine ⟨le_refl _, by norm_num [emptyResponse], by simp [emptyResponse],
        by simp [emptyResponse], by simp [emptyResponse], by simp [emptyResponse]⟩
    · unfold analyze_instagram
      rw [if_neg h]
      dsimp only
      have hlen : 0 < posts.length := Nat.pos_of_ne_zero h
      rw [if_pos hlen]
      have hpos := foldl_procPost_positive pol now posts igInit
      have hle : (posts.foldl (procPost pol now) igInit).positive_count ≤ posts.length := by
        rw [hpos]
        simp only [igInit]
        simpa using List.countP_le_length _
      have hq0 : (0 : ℚ) ≤
          ((posts.foldl (procPost pol now) igInit).positive_count : ℚ) /
            (posts.length : ℚ) * 100 := by
        positivity
      have hq100 : ((posts.foldl (procPost pol now) igInit).positive_count : ℚ) /
          (posts.length : ℚ) * 100 ≤ ((100 : ℤ) : ℚ) := by
        have hc : ((posts.foldl (procPost pol now) igInit).positive_count : ℚ) ≤
            (posts.length : ℚ) := by exact_mod_cast hle
        have hp : (0 : ℚ) < (posts.length : ℚ) := by exact_mod_cast hlen
        have : ((posts.foldl (procPost pol now) igInit).positive_count : ℚ) /
            (posts.length : ℚ) ≤ 1 := by
          rw [div_le_one hp]
          exact hc
        push_cast
        nlinarith
      refine ⟨pyRound_nonneg 2 hq0, ?_, ?_, ?_, ?_, ?_⟩
      · have := pyRound_le_int 2 hq100
        exact le_trans this (by norm_num)
      · simp only [List.length_map, most_common]
        exact List.length_take_le _ _
      · simp only [List.length_map, most_common]
        exact List.length_take_le _ _
      · exact List.length_take_le _ _
      · exact List.length_take_le _ _

/-! ## Claim C5: reach is bounded by the batch size -/

/-- C5: `estimated_reach ≤ total_mentions` — each post inserts at most one
author key into the distinct-author set, in both aggregators. -/
theorem c5_reach_le_total :
    (∀ (pol : String → ℚ) (now : ℚ) (users : List (String × UserRec))
      (places : List (String × PlaceRec)) (tweets : List RawTweet),
      (analyze pol now users places tweets).estimated_reach ≤
        (analyze pol now users places tweets).total_mentions) ∧
    (∀ (pol : String → ℚ) (now : ℚ) (posts : List RawPost),
      (analyze_instagram pol now posts).estimated_reach ≤
        (analyze_instagram pol now posts).total_mentions) := by
  constructor
  · intro pol now users places tweets
    by_cases h : tweets.length = 0
    · unfold analyze
      rw [if_pos h]
      exact le_refl _
    · unfold analyze
      rw [if_neg h]
      dsimp only
      simpa [twInit] using foldl_procTweet_reach pol now users places tweets twInit
  · intro pol now posts
    by_cases h : posts.length = 0
    · unfold analyze_instagram
      rw [if_pos h]
      exact le_refl _
    · unfold analyze_instagram
      rw [if_neg h]
      dsimp only
      simpa [igInit] using foldl_procPost_reach pol now posts igInit

/-! ## Claim C10: positive count vs. positive label thresholds -/

/-- C10: a post is counted toward `positive_sentiment_percent` exactly when
its polarity is strictly greater than 0 (the percent is the rounded share of
posts with `polarity > 0`), while the label is `"positive"` only above `0.1`;
a polarity in `(0, 0.1]` is labelled `"neutral"` yet still counted. -/
theorem c10_positive_threshold :
    (∀ p : ℚ, 0 < p → p ≤ 1/10 → get_sentiment_label p = "neutral") ∧
    (∀ p : ℚ, get_sentiment_label p = "positive" ↔ 1/10 < p) ∧
    (∀ (pol : String → ℚ) (now : ℚ) (users : List (String × UserRec))
      (places : List (String × PlaceRec)) (tweets : List RawTweet),
      tweets.length ≠ 0 →
      (analyze pol now users places tweets).positive_sentiment_percent =
        pyRound ((tweets.countP (fun t => decide (0 < pol t.text)) : ℚ) /
          (tweets.length : ℚ) * 100) 2) ∧
    (∀ (pol : String → ℚ) (now : ℚ) (posts : List RawPost),
      posts.length ≠ 0 →
      (analyze_instagram pol now posts).positive_sentiment_percent =
        pyRound ((posts.countP (fun post =>
            decide (post.caption.getD "" ≠ "" ∧ 0 < pol (post.caption.getD ""))) : ℚ) /
          (posts.length : ℚ) * 100) 2) := by
  refine ⟨?_, ?_, ?_, ?_⟩
  · intro p h0 h1
    unfold get_sentiment_label
    rw [if_neg (by linarith), if_neg (by linarith)]
  · intro p
    unfold get_sentiment_label
    split
    · simp only [true_iff]
      assumption
    · split <;> simp <;> linarith
  · intro pol now users places tweets h
    unfold analyze
    rw [if_neg h]
    dsimp only
    rw [if_pos (Nat.pos_of_ne_zero h), foldl_procTweet_positive]
    simp [twInit]
  · intro pol now posts h
    unfold analyze_instagram
    rw [if_neg h]
    dsimp only
    rw [if_pos (Nat.pos_of_ne_zero h), foldl_procPost_positive]
    simp [igInit]

/-! ## Claim C1 (corrected): timestamps and the sentiment trend -/

/-- C1 as amended: a present-but-unparseable timestamp string is filed under
"today's" date in both aggregators, and an absent Instagram timestamp is also
filed under "today"; but a Twitter post with an absent timestamp contributes
nothing to the trend, and a timestamp of unexpected type (non-string for
Twitter, non-string-non-number for Instagram) also contributes nothing. -/
theorem c1_amended (pol : String → ℚ) (now : ℚ) (users : List (String × UserRec))
    (places : List (String × PlaceRec)) (t : RawTweet) (post : RawPost) :
    (t.created_at = CreatedAt.unparseable →
      (analyze pol now users places [t]).sentiment_trend =
        [(dayOf now, pyRound (pol t.text) 3)]) ∧
    (t.created_at = CreatedAt.absent →
      (analyze pol now users places [t]).sentiment_trend = []) ∧
    (t.created_at = CreatedAt.nonString →
      (analyze pol now users places [t]).sentiment_trend = []) ∧
    (post.timestamp = IgTs.absent →
      (analyze_instagram pol now [post]).sentiment_trend =
        [(dayOf now, pyRound (if post.caption.getD "" ≠ ""
          then pol (post.caption.getD "") else 0) 3)]) ∧
    (post.timestamp = IgTs.strParse none →
      (analyze_instagram pol now [post]).sentiment_trend =
        [(dayOf now, pyRound (if post.caption.getD "" ≠ ""
          then pol (post.caption.getD "") else 0) 3)]) ∧
    (post.timestamp = IgTs.otherType →
      (analyze_instagram pol now [post]).sentiment_trend = []) := by
  have hTw : (analyze pol now users places [t]).sentiment_trend =
      ((List.foldl (procTweet pol now users places) twInit [t]).trend).filterMap
        (fun dc => if 0 < dc.2.2 then some (dc.1, pyRound (dc.2.1 / (dc.2.2 : ℚ)) 3)
          else none) := rfl
  have hIg : (analyze_instagram pol now [post]).sentiment_trend =
      ((List.foldl (procPost pol now) igInit [post]).trend).filterMap
        (fun dc => if 0 < dc.2.2 then some (dc.1, pyRound (dc.2.1 / (dc.2.2 : ℚ)) 3)
          else none) := rfl
  have hiteT : (if 0 < pol t.text then
      { twInit with positive_count := twInit.positive_count + 1 } else twInit).trend = [] := by
    split <;> rfl
  have hiteI : (if post.caption.getD "" ≠ "" ∧
      0 < (if post.caption.getD "" ≠ "" then pol (post.caption.getD "") else 0) then
      { igInit with positive_count := igInit.positive_count + 1 } else igInit).trend = [] := by
    repeat' split
    all_goals rfl
  have higTrend : ∀ r : IgTs,
      (List.foldl (procPost pol now) igInit [post]).trend =
        (igDateStage now (if post.caption.getD "" ≠ "" ∧
          0 < (if post.caption.getD "" ≠ "" then pol (post.caption.getD "") else 0) then
          { igInit with positive_count := igInit.positive_count + 1 } else igInit)
          post.timestamp
          (if post.caption.getD "" ≠ "" then pol (post.caption.getD "") else 0)).1.trend := by
    intro _
    simp only [List.foldl_cons, List.foldl_nil]
    unfold procPost
    dsimp only
    rw [igMentionStage_trend, igLocStage_trend, igInflStage_trend, igReachStage_trend,
      igEngStage_trend]
  refine ⟨?_, ?_, ?_, ?_, ?_, ?_⟩
  · intro h
    rw [hTw]
    simp only [List.foldl_cons, List.foldl_nil]
    unfold procTweet
    dsimp only
    rw [h, procTweetRest_trend]
    unfold tAdd
    rw [hiteT]
    unfold dUpd
    simp
  · intro h
    rw [hTw]
    simp only [List.foldl_cons, List.foldl_nil]
    unfold procTweet
    dsimp only
    rw [h, procTweetRest_trend, hiteT]
    rfl
  · intro h
    rw [hTw]
    simp only [List.foldl_cons, List.foldl_nil]
    unfold procTweet
    dsimp only
    rw [h, hiteT]
    rfl
  · intro h
    rw [hIg, higTrend post.timestamp, h]
    unfold igDateStage tAddIg
    dsimp only
    rw [hiteI]
    unfold dUpd
    simp
  · intro h
    rw [hIg, higTrend post.timestamp, h]
    unfold igDateStage tAddIg
    dsimp only
    rw [hiteI]
    unfold dUpd
    simp
  · intro h
    rw [hIg, higTrend post.timestamp, h]
    unfold igDateStage
    rw [hiteI]
    rfl


/-! ## Claim C2 (corrected): per-post exception handling -/

/-- C2 as amended: an exception while processing one post is swallowed and
the batch continues (every remaining post is still counted), but the failing
post is excluded only from the tallies recorded after the failure point —
tallies already updated are kept. Concretely, a Twitter post whose
`created_at` is a truthy non-string raises `AttributeError` after the
positive-count update; the iteration then contributes exactly that one update
and nothing else. -/
theorem c2_amended (pol : String → ℚ) (now : ℚ) (users : List (String × UserRec))
    (places : List (String × PlaceRec)) (σ : TwState) (t : RawTweet)
    (rest : List RawTweet) (h : t.created_at = CreatedAt.nonString) :
    procTweet pol now users places σ t =
      { σ with positive_count := σ.positive_count + (if 0 < pol t.text then 1 else 0) } ∧
    (analyze pol now users places (t :: rest)).total_mentions = rest.length + 1 := by
  constructor
  · unfold procTweet
    dsimp only
    rw [h]
    by_cases hp : 0 < pol t.text
    · rw [if_pos hp, if_pos hp]
    · rw [if_neg hp, if_neg hp]
      simp
  · unfold analyze
    rw [if_neg (by simp)]
    simp

/-! ## Combiner lemmas: folding pairwise-fresh entries reproduces them -/

theorem dMerge_fresh {d : List (ℤ × ℚ)} {k : ℤ} (v : ℚ) (h : k ∉ d.map Prod.fst) :
    dMerge d k v = d ++ [(k, v)] := by
  induction d with
  | nil => rfl
  | cons p r ih =>
    obtain ⟨k2, w⟩ := p
    simp only [List.map_cons, List.mem_cons] at h
    push_neg at h
    simp [dMerge, Ne.symm h.1, ih h.2]

theorem cAdd_fresh {K : Type} [DecidableEq K] {c : List (K × ℕ)} {k : K} (n : ℕ)
    (h : k ∉ c.map Prod.fst) : cAdd c k n = c ++ [(k, n)] := by
  induction c with
  | nil => simp [cAdd, dUpd]
  | cons p r ih =>
    obtain ⟨k2, m⟩ := p
    simp only [List.map_cons, List.mem_cons] at h
    push_neg at h
    simp only [cAdd, dUpd] at ih ⊢
    simp [Ne.symm h.1, ih h.2]

/-- Folding an update that appends a fresh `(key, val)` entry, over a list of
pairwise-distinct fresh keys, appends all the entries in order. -/
theorem foldl_fresh {α K V : Type} [DecidableEq K] (key : α → K) (val : α → V)
    (upd : List (K × V) → α → List (K × V))
    (hupd : ∀ c a, key a ∉ c.map Prod.fst → upd c a = c ++ [(key a, val a)]) :
    ∀ (l : List α) (acc : List (K × V)), (l.map key).Nodup →
      (∀ a ∈ l, key a ∉ acc.map Prod.fst) →
      l.foldl upd acc = acc ++ l.map (fun a => (key a, val a))
  | [], acc, _, _ => by simp
  | a :: rest, acc, hnd, hfresh => by
    rw [List.foldl_cons, hupd acc a (hfresh a (by simp))]
    have hnd' : (rest.map key).Nodup := by
      simp only [List.map_cons, List.nodup_cons] at hnd
      exact hnd.2
    have hha : key a ∉ rest.map key := by
      simp only [List.map_cons, List.nodup_cons] at hnd
      exact hnd.1
    have hrest : ∀ b ∈ rest, key b ∉ (acc ++ [(key a, val a)]).map Prod.fst := by
      intro b hb
      simp only [List.map_append, List.map_cons, List.map_nil, List.mem_append,
        List.mem_cons, List.not_mem_nil, or_false]
      push_neg
      refine ⟨hfresh b (by simp [hb]), ?_⟩
      intro hkb
      exact hha (hkb ▸ List.mem_map_of_mem key hb)
    rw [foldl_fresh key val upd hupd rest (acc ++ [(key a, val a)]) hnd' hrest]
    simp

/-! ## `most_common` on an already-ranked counter -/

theorem most_common_keys_nodup {K : Type} {c : List (K × ℕ)} (n : ℕ)
    (h : (c.map Prod.fst).Nodup) : ((most_common c n).map Prod.fst).Nodup := by
  unfold most_common
  have hperm : (c.insertionSort cntRel).Perm c := List.perm_insertionSort cntRel c
  have h1 : ((c.insertionSort cntRel).map Prod.fst).Nodup :=
    h.perm (hperm.map Prod.fst).symm
  have h2 : (((c.insertionSort cntRel).take n).map Prod.fst).Sublist
      ((c.insertionSort cntRel).map Prod.fst) :=
    (List.take_sublist n _).map Prod.fst
  exact h1.sublist h2

theorem most_common_sorted {K : Type} (c : List (K × ℕ)) (n : ℕ) :
    (most_common c n).Sorted cntRel := by
  unfold most_common
  exact (List.sorted_insertionSort cntRel c).sublist (List.take_sublist n _)

theorem most_common_of_sorted {K : Type} {c : List (K × ℕ)} {n : ℕ}
    (hs : c.Sorted cntRel) (hl : c.length ≤ n) : most_common c n = c := by
  unfold most_common
  rw [hs.insertionSort_eq]
  exact List.take_of_length_le hl

/-! ## The single-summary round trip through the combiner -/

theorem locPairs_mk (l : List (String × ℕ)) :
    locPairs (l.map (fun p => Location.mk p.1 p.2)) = l := by
  induction l with
  | nil => rfl
  | cons p r ih =>
    simp only [locPairs, List.map_cons, List.map_map] at ih ⊢
    simp [ih]

theorem kwPairs_mk (l : List (String × ℕ)) :
    kwPairs (l.map (fun p => Keyword.mk p.1 p.2)) = l := by
  induction l with
  | nil => rfl
  | cons p r ih =>
    simp only [kwPairs, List.map_cons, List.map_map] at ih ⊢
    simp [ih]

theorem mk_locPairs (l : List Location) :
    (locPairs l).map (fun p => Location.mk p.1 p.2) = l := by
  induction l with
  | nil => rfl
  | cons p r ih =>
    simp only [locPairs, List.map_cons, List.map_map] at ih ⊢
    simp [ih]

theorem mk_kwPairs (l : List Keyword) :
    (kwPairs l).map (fun p => Keyword.mk p.1 p.2) = l := by
  induction l with
  | nil => rfl
  | cons p r ih =>
    simp only [kwPairs, List.map_cons, List.map_map] at ih ⊢
    simp [ih]

theorem locPairs_fst (l : List Location) :
    (locPairs l).map Prod.fst = l.map Location.location_name := by
  simp [locPairs, List.map_map]

theorem kwPairs_fst (l : List Keyword) :
    (kwPairs l).map Prod.fst = l.map Keyword.text := by
  simp [kwPairs, List.map_map]

/-- Feeding a single summary through the combiner reproduces it exactly,
provided the summary satisfies the aggregator invariants and its influencer
usernames are pairwise distinct. -/
theorem combine_single (s : AnalyzeResponse) (hinv : SummaryInv s)
    (hu : (s.top_influencers.map User.username).Nodup) :
    combine_analysis_results_fixed [s] = s := by
  obtain ⟨hp2, hr4, hz, htr, hlocN, hlocS, hlocL, hkwN, hkwS, hkwL, hrS, hrL, hiS, hiL,
    herr⟩ := hinv
  unfold combine_analysis_results_fixed
  rw [if_neg (by simp)]
  dsimp only
  have htrend : s.sentiment_trend.foldl (fun d p => dMerge d p.1 p.2) [] =
      s.sentiment_trend := by
    rw [foldl_fresh Prod.fst Prod.snd _ (fun c p h => dMerge_fresh p.2 h)
      s.sentiment_trend [] htr (by simp)]
    simp
  have hlocCnt : s.top_locations.foldl
      (fun c l => cAdd c l.location_name l.total_mentions) [] = locPairs s.top_locations := by
    rw [foldl_fresh Location.location_name Location.total_mentions _
      (fun c l h => cAdd_fresh l.total_mentions h) s.top_locations []
      (by rw [← locPairs_fst]; exact hlocN) (by simp)]
    simp [locPairs]
  have hkwCnt : s.top_keywords.foldl (fun c k => cAdd c k.text k.mentions) [] =
      kwPairs s.top_keywords := by
    rw [foldl_fresh Keyword.text Keyword.mentions _
      (fun c k h => cAdd_fresh k.mentions h) s.top_keywords []
      (by rw [← kwPairs_fst]; exact hkwN) (by simp)]
    simp [kwPairs]
  have hinf : s.top_influencers.foldl (fun d i =>
      match aLookup d i.username with
      | none => d ++ [(i.username, i)]
      | some j => if j.followers < i.followers then dReplace d i.username i else d) [] =
      s.top_influencers.map (fun i => (i.username, i)) := by
    rw [foldl_fresh User.username (fun i => i) _ ?_ s.top_influencers [] hu (by simp)]
    · simp
    · intro c a h
      rw [aLookup_eq_none.mpr h]
  ext : 1
  case total_mentions => simp
  case positive_sentiment_percent =>
    by_cases h0 : s.total_mentions = 0
    · simp only [List.map_cons, List.map_nil, List.sum_cons, List.sum_nil, h0]
      rw [if_neg (by simp), pyRound_zero]
      exact ((hz h0).1).symm
    · have hpos : 0 < s.total_mentions := Nat.pos_of_ne_zero h0
      have hT : ((s.total_mentions : ℚ)) ≠ 0 := by exact_mod_cast h0
      simp only [List.map_cons, List.map_nil, List.sum_cons, List.sum_nil, List.filter_cons,
        List.filter_nil, decide_eq_true_eq, hpos, if_true, add_zero]
      have hsimp : s.positive_sentiment_percent * (s.total_mentions : ℚ) / 100 /
          (s.total_mentions : ℚ) * 100 = s.positive_sentiment_percent := by
        field_simp
        ring
      rw [hsimp, hp2]
  case avg_engagement_rate =>
    by_cases h0 : s.total_mentions = 0
    · simp only [List.map_cons, List.map_nil, List.sum_cons, List.sum_nil, h0]
      rw [if_neg (by simp), pyRound_zero]
      exact ((hz h0).2).symm
    · have hpos : 0 < s.total_mentions := Nat.pos_of_ne_zero h0
      have hT : ((s.total_mentions : ℚ)) ≠ 0 := by exact_mod_cast h0
      simp only [List.map_cons, List.map_nil, List.sum_cons, List.sum_nil, List.filter_cons,
        List.filter_nil, decide_eq_true_eq, hpos, if_true, add_zero]
      have hsimp : s.avg_engagement_rate * (s.total_mentions : ℚ) /
          (s.total_mentions : ℚ) = s.avg_engagement_rate := by
        field_simp
      rw [hsimp, hr4]
  case estimated_reach => simp
  case sentiment_trend =>
    simp only [List.foldl_cons, List.foldl_nil]
    exact htrend
  case top_locations =>
    simp only [List.foldl_cons, List.foldl_nil, hlocCnt]
    rw [most_common_of_sorted hlocS (by simpa [locPairs] using hlocL)]
    exact mk_locPairs s.top_locations
  case top_keywords =>
    simp only [List.foldl_cons, List.foldl_nil, hkwCnt]
    rw [most_common_of_sorted hkwS (by simpa [kwPairs] using hkwL)]
    exact mk_kwPairs s.top_keywords
  case recent_mentions =>
    simp only [List.map_cons, List.map_nil, List.flatten_cons, List.flatten_nil,
      List.append_nil]
    rw [hrS.insertionSort_eq]
    exact List.take_of_length_le hrL
  case top_influencers =>
    simp only [List.map_cons, List.map_nil, List.flatten_cons, List.flatten_nil,
      List.append_nil, hinf]
    rw [List.map_map]
    have h2 : ((fun p : String × User => p.2) ∘ (fun i : User => (i.username, i))) =
        (fun i : User => i) := rfl
    rw [h2, List.map_id']
    rw [hiS.insertionSort_eq]
    exact List.take_of_length_le hiL
  case error => exact herr.symm

/-! ## The aggregators establish the summary invariants -/

theorem filterMap_keys_sublist {α β K : Type} (f : α → Option β) (ka : α → K) (kb : β → K)
    (hf : ∀ a b, f a = some b → kb b = ka a) :
    ∀ l : List α, ((l.filterMap f).map kb).Sublist (l.map ka)
  | [] => by simp
  | a :: rest => by
    rw [List.map_cons, List.filterMap_cons]
    cases hfa : f a with
    | none => exact (filterMap_keys_sublist f ka kb hf rest).cons _
    | some b =>
      rw [List.map_cons, hf a b hfa]
      exact (filterMap_keys_sublist f ka kb hf rest).cons₂ _

theorem trendMap_keys_nodup {tr : List (ℤ × ℚ × ℕ)} (h : (tr.map Prod.fst).Nodup) :
    ((tr.filterMap (fun dc =>
      if 0 < dc.2.2 then some (dc.1, pyRound (dc.2.1 / (dc.2.2 : ℚ)) 3) else none)).map
        Prod.fst).Nodup := by
  refine h.sublist (filterMap_keys_sublist _ Prod.fst Prod.fst ?_ tr)
  intro a b hab
  split at hab
  · cases hab
    rfl
  · cases hab

theorem igFolRel_to_folRel {l : List User} (h : l.Sorted igFolRel) : l.Sorted folRel :=
  h.imp (fun hab => hab.elim le_of_lt (fun h2 => le_of_eq h2.1))

theorem analyze_summaryInv (pol : String → ℚ) (now : ℚ) (users : List (String × UserRec))
    (places : List (String × PlaceRec)) (tweets : List RawTweet) :
    SummaryInv (analyze pol now users places tweets) := by
  unfold SummaryInv
  by_cases h : tweets.length = 0
  · unfold analyze
    rw [if_pos h]
    refine ⟨?_, ?_, ?_, ?_, ?_, ?_, ?_, ?_, ?_, ?_, ?_, ?_, ?_, ?_, ?_⟩ <;>
      simp [emptyResponse, locPairs, kwPairs, pyRound_zero]
  · unfold analyze
    rw [if_neg h]
    dsimp only
    obtain ⟨hn1, hn2, hn3, hn4⟩ := foldl_procTweet_nodups pol now users places tweets twInit
      (by simp [twInit]) (by simp [twInit]) (by simp [twInit]) (by simp [twInit])
    refine ⟨pyRound_idem _ 2, pyRound_idem _ 4, fun h0 => absurd h0 h, ?_, ?_, ?_, ?_, ?_,
      ?_, ?_, ?_, ?_, ?_, ?_, rfl⟩
    · exact trendMap_keys_nodup hn1
    · rw [locPairs_mk]
      exact most_common_keys_nodup 5 hn2
    · rw [locPairs_mk]
      exact most_common_sorted _ 5
    · simpa [most_common] using List.length_take_le _ _
    · rw [kwPairs_mk]
      exact most_common_keys_nodup 10 hn3
    · rw [kwPairs_mk]
      exact most_common_sorted _ 10
    · simpa [most_common] using List.length_take_le _ _
    · exact (List.sorted_insertionSort timeRel _).sublist (List.take_sublist 5 _)
    · exact le_trans (List.length_take_le _ _) (by norm_num)
    · exact (List.sorted_insertionSort folRel _).sublist (List.take_sublist 5 _)
    · exact List.length_take_le _ _

theorem analyze_instagram_summaryInv (pol : String → ℚ) (now : ℚ) (posts : List RawPost) :
    SummaryInv (analyze_instagram pol now posts) := by
  unfold SummaryInv
  by_cases h : posts.length = 0
  · unfold analyze_instagram
    rw [if_pos h]
    refine ⟨?_, ?_, ?_, ?_, ?_, ?_, ?_, ?_, ?_, ?_, ?_, ?_, ?_, ?_, ?_⟩ <;>
      simp [emptyResponse, locPairs, kwPairs, pyRound_zero]
  · unfold analyze_instagram
    rw [if_neg h]
    dsimp only
    obtain ⟨hn1, hn2, hn3, hn4⟩ := foldl_procPost_nodups pol now posts igInit
      (by simp [igInit]) (by simp [igInit]) (by simp [igInit]) (by simp [igInit])
    refine ⟨pyRound_idem _ 2, pyRound_idem _ 4, fun h0 => absurd h0 h, ?_, ?_, ?_, ?_, ?_,
      ?_, ?_, ?_, ?_, ?_, ?_, rfl⟩
    · exact trendMap_keys_nodup hn1
    · rw [locPairs_mk]
      exact most_common_keys_nodup 5 hn2
    · rw [locPairs_mk]
      exact most_common_sorted _ 5
    · simpa [most_common] using List.length_take_le _ _
    · rw [kwPairs_mk]
      exact most_common_keys_nodup 10 hn3
    · rw [kwPairs_mk]
      exact most_common_sorted _ 10
    · simpa [most_common] using List.length_take_le _ _
    · exact (List.sorted_insertionSort timeRel _).sublist (List.take_sublist 5 _)
    · exact le_trans (List.length_take_le _ _) (by norm_num)
    · exact igFolRel_to_folRel
        ((List.sorted_insertionSort igFolRel _).sublist (List.take_sublist 5 _))
    · exact List.length_take_le _ _

/-! ## Claim C6 (corrected): the single-summary combiner round trip -/

/-- C6 as amended: the shipped `combine_analysis_results` never returns a
merged summary — `main.py` does not import `Counter`, `Location` or `Keyword`,
so every non-empty argument (in particular `[s]`) raises `NameError`, which
the caller swallows into an error response; only the empty list returns, with
the zero summary. Under the one-line repair that adds the missing imports
(`combine_analysis_results_fixed`), `combine([s])` reproduces an aggregator
summary `s` exactly — all scalar fields, the trend mapping, and the ranked
lists, the combiner's larger truncation limits changing nothing — provided
the summary's influencer usernames are pairwise distinct. (Without that
proviso the repaired combiner merges duplicate-username influencers, keeping
the higher follower count, and the influencer lists differ.) -/
theorem c6_amended :
    (∀ (results : List AnalyzeResponse), results ≠ [] →
      combine_analysis_results results =
        Except.error "NameError: name Counter is not defined") ∧
    combine_analysis_results [] =
      Except.ok ⟨0, 0, 0, 0, [], [], [], [], [], none⟩ ∧
    (∀ (pol : String → ℚ) (now : ℚ) (users : List (String × UserRec))
      (places : List (String × PlaceRec)) (tweets : List RawTweet),
      ((analyze pol now users places tweets).top_influencers.map User.username).Nodup →
      combine_analysis_results_fixed [analyze pol now users places tweets] =
        analyze pol now users places tweets) ∧
    (∀ (pol : String → ℚ) (now : ℚ) (posts : List RawPost),
      ((analyze_instagram pol now posts).top_influencers.map User.username).Nodup →
      combine_analysis_results_fixed [analyze_instagram pol now posts] =
        analyze_instagram pol now posts) :=
  ⟨fun results h => by
      cases results with
      | nil => exact absurd rfl h
      | cons a l => rfl,
    rfl,
    fun pol now users places tweets hu =>
      combine_single _ (analyze_summaryInv pol now users places tweets) hu,
    fun pol now posts hu =>
      combine_single _ (analyze_instagram_summaryInv pol now posts) hu⟩

/-! ## Claim C7: location extraction examples -/

/-- C7: the three specification examples of the specialized (Indonesian)
location extractor. -/
theorem c7_extract_location_examples :
    extract_indonesian_city "Jakarta, Indonesia" = some "Jakarta" ∧
    extract_indonesian_city "Kota Bandung, Jawa Barat" = some "Bandung" ∧
    extract_indonesian_city "" = none :=
  ⟨by decide, by decide, by decide⟩

/-! ## Claim C8 (corrected): the short/numeric segment filter -/

/-- C8 as amended: in the specialized variant, a separator segment (short of
an alias hit) yields a city only if its punctuation-stripped form is longer
than 2 characters and not purely numeric; in the generic variant the cutoff
is longer than 1 character — 2-character segments are accepted. A rejected
segment does not make the call return `None`: remaining separators and then
the whole-string cleanup still run, even when a separator existed. -/
theorem c8_amended :
    (∀ (loc : String) (sep : Char) (c : String), indoTrySep loc sep = some c →
      aLookup city_aliases (pyLower (pyStrip (firstSeg sep loc))) = some c ∨
      (2 < (pyStrip (keepWordSpace (pyLower (pyStrip (firstSeg sep loc))))).length ∧
        pyIsDigit (pyStrip (keepWordSpace (pyLower (pyStrip (firstSeg sep loc))))) = false)) ∧
    (∀ (loc : String) (sep : Char) (c : String), cityTrySep loc sep = some c →
      1 < (pyStrip (keepWordSpace (pyStrip (firstSeg sep loc)))).length ∧
        pyIsDigit (pyStrip (keepWordSpace (pyStrip (firstSeg sep loc)))) = false) ∧
    extract_city_name "ab, xy" = some "Ab" ∧
    extract_indonesian_city "ab, xy" = some "Ab Xy" := by
  refine ⟨?_, ?_, by decide, by decide⟩
  · intro loc sep c h
    unfold indoTrySep at h
    dsimp only at h
    by_cases hc : containsChar loc sep = true
    · rw [if_pos hc] at h
      rcases halias : aLookup city_aliases (pyLower (pyStrip (firstSeg sep loc))) with _ | city
      · rw [halias] at h
        dsimp only at h
        by_cases hcond : 2 < (pyStrip (keepWordSpace (pyLower (pyStrip (firstSeg sep loc))))).length ∧
            pyIsDigit (pyStrip (keepWordSpace (pyLower (pyStrip (firstSeg sep loc))))) = false
        · exact Or.inr hcond
        · rw [if_neg hcond] at h
          exact absurd h (by simp)
      · rw [halias] at h
        dsimp only at h
        exact Or.inl h
    · rw [if_neg hc] at h
      exact absurd h (by simp)
  · intro loc sep c h
    unfold cityTrySep at h
    dsimp only at h
    by_cases hc : containsChar loc sep = true
    · rw [if_pos hc] at h
      by_cases hne : pyStrip (firstSeg sep loc) ≠ ""
      · rw [if_pos hne] at h
        by_cases hcond : 1 < (pyStrip (keepWordSpace (pyStrip (firstSeg sep loc)))).length ∧
            pyIsDigit (pyStrip (keepWordSpace (pyStrip (firstSeg sep loc)))) = false
        · exact hcond
        · rw [if_neg hcond] at h
          exact absurd h (by simp)
      · rw [if_neg hne] at h
        exact absurd h (by simp)
    · rw [if_neg hc] at h
      exact absurd h (by simp)

/-! ## Claim C9 (corrected): keyword extraction exclusions -/

/-- C9 as amended: every word token produced by the Twitter keyword extractor
is alphabetic (hence never a URL or an @-mention), at least 2 characters, and
not in its stop list; every word token of the Instagram caption extractor is
alphabetic, at least 3 characters, and not in `STOPWORDS`. But the
Instagram hashtag weighting bypasses the stopword filter: a stopword occurring
as a hashtag enters the keyword tally. -/
theorem c9_amended :
    (∀ (text w : String), w ∈ twKeywords text →
      w ∉ twStop ∧ pyIsAlpha w = true ∧ 2 ≤ w.length ∧
      w ≠ "http://x.com" ∧ w ≠ "@someone") ∧
    (∀ (caption w : String), w ∈ igCaptionWords caption →
      w ∉ STOPWORDS ∧ pyIsAlpha w = true ∧ 3 ≤ w.length ∧
      w ≠ "http://x.com" ∧ w ≠ "@someone") ∧
    igKeywordStep [] [] "#the x" = [("the", 2)] ∧ "the" ∈ STOPWORDS := by
  refine ⟨?_, ?_, by decide, by decide⟩
  · intro text w hw
    unfold twKeywords at hw
    simp only [List.mem_filterMap] at hw
    obtain ⟨word, _, hf⟩ := hw
    try dsimp only at hf
    split at hf
    · rename_i hcond
      cases hf
      obtain ⟨hlen, hdig, halpha, hstop⟩ := hcond
      refine ⟨hstop, halpha, hlen, ?_, ?_⟩
      · intro heq
        rw [heq] at halpha
        exact absurd halpha (by decide)
      · intro heq
        rw [heq] at halpha
        exact absurd halpha (by decide)
    · cases hf
  · intro caption w hw
    unfold igCaptionWords at hw
    simp only [List.mem_filterMap] at hw
    obtain ⟨word, _, hf⟩ := hw
    try dsimp only at hf
    split at hf
    · rename_i hcond
      cases hf
      obtain ⟨hlen, hdig, halpha, hstop⟩ := hcond
      refine ⟨hstop, halpha, hlen, ?_, ?_⟩
      · intro heq
        rw [heq] at halpha
        exact absurd halpha (by decide)
      · intro heq
        rw [heq] at halpha
        exact absurd halpha (by decide)
    · cases hf

/-! ## Closed concrete evaluations

Mathlib marks the core `Rat` arithmetic irreducible; the kernel-level
evaluations below need it reducible again. -/

attribute [local semireducible] Rat.add Rat.mul Rat.sub Rat.inv

/-- Witness for C10 at concrete inputs: polarity `1/20` lies in `(0, 0.1]`,
is labelled `"neutral"`, and a one-tweet batch with that polarity yields a
100% positive share. -/
theorem c10_witness :
    get_sentiment_label (1/20) = "neutral" ∧
    (analyze (fun _ => 1/20) 0 [] [] [⟨"t", none, CreatedAt.absent, ⟨0, 0, 0⟩, none⟩]
      ).positive_sentiment_percent =
      pyRound ((1 : ℚ) / 1 * 100) 2 := by
  constructor
  · exact c10_positive_threshold.1 (1/20) (by norm_num) (by norm_num)
  · have h := c10_positive_threshold.2.2.1 (fun _ => 1/20) 0 [] []
      [⟨"t", none, CreatedAt.absent, ⟨0, 0, 0⟩, none⟩] (by decide)
    rw [h]
    norm_num


/-- Counterexample to C1 as stated: a Twitter post whose `created_at` is
absent makes no sentiment-trend contribution at all — the trend is empty, not
filed under "today's" date, although the post's polarity (1/2) is positive
and the post itself is still counted (`total_mentions = 1`). -/
theorem c1_counterexample :
    (analyze (fun _ => 1/2) 0 [] []
      [⟨"t", none, CreatedAt.absent, ⟨0, 0, 0⟩, none⟩]).sentiment_trend = [] ∧
    (analyze (fun _ => 1/2) 0 [] []
      [⟨"t", none, CreatedAt.absent, ⟨0, 0, 0⟩, none⟩]).total_mentions = 1 := by
  constructor
  · decide
  · decide


/-- Witness for C1 as amended, at a concrete unparseable-timestamp tweet and
a concrete absent-timestamp Instagram post. -/
theorem c1_witness :
    (analyze (fun _ => 1/2) (3/2) [] []
      [⟨"t", none, CreatedAt.unparseable, ⟨0, 0, 0⟩, none⟩]).sentiment_trend =
      [(1, pyRound (1/2) 3)] ∧
    (analyze_instagram (fun _ => 1/2) (3/2)
      [⟨some "c", none, none, IgTs.absent, none, none, none, none, []⟩]).sentiment_trend =
      [(1, pyRound (1/2) 3)] := by
  constructor
  · have h := (c1_amended (fun _ => 1/2) (3/2) [] []
      ⟨"t", none, CreatedAt.unparseable, ⟨0, 0, 0⟩, none⟩
      ⟨some "c", none, none, IgTs.absent, none, none, none, none, []⟩).1 rfl
    rw [h]
    norm_num [dayOf]
  · have h := (c1_amended (fun _ => 1/2) (3/2) [] []
      ⟨"t", none, CreatedAt.unparseable, ⟨0, 0, 0⟩, none⟩
      ⟨some "c", none, none, IgTs.absent, none, none, none, none, []⟩).2.2.2.1 rfl
    rw [h]
    norm_num [dayOf]
    rw [if_neg (by decide : ¬("c" : String) = "")]

/-- Counterexample to C2 as stated: in a one-tweet batch whose tweet raises
(non-string `created_at`), the claim demands exclusion from all downstream
tallies, so the positive-sentiment share would have to be 0; the code keeps
the already-recorded positive count (share 100) while every later tally
(trend, engagement, reach, locations, keywords, mentions, influencers) shows
the post was indeed skipped from the failure point on. -/
theorem c2_counterexample :
    analyze (fun _ => 1/2) 0 [("1", ⟨some "a", 10, none⟩)] []
      [⟨"t", some "1", CreatedAt.nonString, ⟨0, 0, 0⟩, none⟩] =
      ⟨1, 100, 0, 0, [], [], [], [], [], none⟩ := by decide

/-- Witness for C2 as amended, at a concrete one-tweet state. -/
theorem c2_witness :
    procTweet (fun _ => 1/2) 0 [] [] twInit ⟨"t", none, CreatedAt.nonString, ⟨0, 0, 0⟩, none⟩ =
      { twInit with positive_count := twInit.positive_count +
          (if 0 < ((fun (_ : String) => (1:ℚ)/2) "t") then 1 else 0) } ∧
    (analyze (fun _ => 1/2) 0 [] []
      ([⟨"t", none, CreatedAt.nonString, ⟨0, 0, 0⟩, none⟩] ++ [])).total_mentions = 1 := by
  have h := c2_amended (fun _ => 1/2) 0 [] [] twInit
    ⟨"t", none, CreatedAt.nonString, ⟨0, 0, 0⟩, none⟩ [] rfl
  exact ⟨h.1, h.2⟩

/-- Even under the import repair the original C6 would fail without the
username proviso: two tweets from different author ids that share a username
produce a summary whose influencer list has two entries; the repaired
combiner merges them by username, so its output differs from `s`, although
no list exceeded the combiner's truncation limits. -/
theorem combine_fixed_merges_duplicate_usernames :
    (analyze (fun _ => 0) 0 [("1", ⟨some "a", 10, none⟩), ("2", ⟨some "a", 5, none⟩)] []
      [⟨"x", some "1", CreatedAt.absent, ⟨0, 0, 0⟩, none⟩,
       ⟨"y", some "2", CreatedAt.absent, ⟨0, 0, 0⟩, none⟩]).top_influencers.length = 2 ∧
    (combine_analysis_results_fixed [analyze (fun _ => 0) 0
      [("1", ⟨some "a", 10, none⟩), ("2", ⟨some "a", 5, none⟩)] []
      [⟨"x", some "1", CreatedAt.absent, ⟨0, 0, 0⟩, none⟩,
       ⟨"y", some "2", CreatedAt.absent, ⟨0, 0, 0⟩, none⟩]]).top_influencers.length = 1 ∧
    combine_analysis_results_fixed [analyze (fun _ => 0) 0
      [("1", ⟨some "a", 10, none⟩), ("2", ⟨some "a", 5, none⟩)] []
      [⟨"x", some "1", CreatedAt.absent, ⟨0, 0, 0⟩, none⟩,
       ⟨"y", some "2", CreatedAt.absent, ⟨0, 0, 0⟩, none⟩]] ≠
      analyze (fun _ => 0) 0 [("1", ⟨some "a", 10, none⟩), ("2", ⟨some "a", 5, none⟩)] []
      [⟨"x", some "1", CreatedAt.absent, ⟨0, 0, 0⟩, none⟩,
       ⟨"y", some "2", CreatedAt.absent, ⟨0, 0, 0⟩, none⟩] := by
  refine ⟨by decide, by decide, by decide⟩

/-- Counterexample to C6 as stated: at the concrete summary the Twitter
aggregator produces for the empty batch, `combine([s])` does not yield `s`
re-truncated — it yields no summary at all, raising `NameError` because
`main.py` never imports `Counter`. -/
theorem c6_counterexample :
    combine_analysis_results [analyze (fun _ => 0) 0 [] [] []] =
      Except.error "NameError: name Counter is not defined" ∧
    combine_analysis_results [analyze (fun _ => 0) 0 [] [] []] ≠
      Except.ok (analyze (fun _ => 0) 0 [] [] []) :=
  ⟨rfl, fun h => Except.noConfusion h⟩

/-- Witness for C6 as amended: the shipped combiner errors at a concrete
one-element list, and under the import repair a concrete two-tweet batch with
distinct influencer usernames round-trips through the combiner unchanged. -/
theorem c6_witness :
    combine_analysis_results [emptyResponse] =
      Except.error "NameError: name Counter is not defined" ∧
    combine_analysis_results_fixed [analyze (fun _ => 0) 0
      [("1", ⟨some "a", 10, none⟩), ("2", ⟨some "b", 5, none⟩)] []
      [⟨"x", some "1", CreatedAt.absent, ⟨0, 0, 0⟩, none⟩,
       ⟨"y", some "2", CreatedAt.absent, ⟨0, 0, 0⟩, none⟩]] =
      analyze (fun _ => 0) 0 [("1", ⟨some "a", 10, none⟩), ("2", ⟨some "b", 5, none⟩)] []
      [⟨"x", some "1", CreatedAt.absent, ⟨0, 0, 0⟩, none⟩,
       ⟨"y", some "2", CreatedAt.absent, ⟨0, 0, 0⟩, none⟩] :=
  ⟨c6_amended.1 [emptyResponse] (by simp),
    c6_amended.2.2.1 (fun _ => 0) 0 [("1", ⟨some "a", 10, none⟩), ("2", ⟨some "b", 5, none⟩)] []
      [⟨"x", some "1", CreatedAt.absent, ⟨0, 0, 0⟩, none⟩,
       ⟨"y", some "2", CreatedAt.absent, ⟨0, 0, 0⟩, none⟩] (by decide)⟩

/-- Counterexample to C8 as stated: the generic extractor accepts the
2-character segment "ab" instead of discarding it, and the specialized
extractor, after rejecting "ab", falls through to the whole-string path and
returns a city name even though a separator existed. -/
theorem c8_counterexample :
    extract_city_name "ab, xy" = some "Ab" ∧
    extract_indonesian_city "ab, xy" = some "Ab Xy" :=
  ⟨by decide, by decide⟩

/-- Witness for C8 as amended: the accepting separator paths of both
extractors on concrete inputs satisfy the stated segment conditions. -/
theorem c8_witness :
    (aLookup city_aliases (pyLower (pyStrip (firstSeg ',' "Jakarta, Indonesia"))) =
        some "Jakarta" ∨
      (2 < (pyStrip (keepWordSpace (pyLower (pyStrip
          (firstSeg ',' "Jakarta, Indonesia"))))).length ∧
        pyIsDigit (pyStrip (keepWordSpace (pyLower (pyStrip
          (firstSeg ',' "Jakarta, Indonesia"))))) = false)) ∧
    (1 < (pyStrip (keepWordSpace (pyStrip (firstSeg ',' "New York, NY")))).length ∧
      pyIsDigit (pyStrip (keepWordSpace (pyStrip (firstSeg ',' "New York, NY")))) = false) :=
  ⟨c8_amended.1 "Jakarta, Indonesia" ',' "Jakarta" (by decide),
   c8_amended.2.1 "New York, NY" ',' "New York" (by decide)⟩

/-- Counterexample to C9 as stated: the stopword "the", occurring as a
hashtag in an Instagram caption, enters the keyword tally (with weight 2) and
surfaces in the final `top_keywords` list. -/
theorem c9_counterexample :
    "the" ∈ STOPWORDS ∧
    igKeywordStep [] [] "#the xy" = [("the", 2)] ∧
    (analyze_instagram (fun _ => 0) 0
      [⟨some "#the xy", some "u", none, IgTs.otherType, some 0, none, none, none, []⟩]
      ).top_keywords = [⟨"the", 2⟩] := by
  refine ⟨by decide, by decide, by decide⟩

/-- Witness for C9 as amended, at a concrete Twitter text and Instagram
caption. -/
theorem c9_witness :
    ("hello" ∉ twStop ∧ pyIsAlpha "hello" = true ∧ 2 ≤ "hello".length ∧
      "hello" ≠ "http://x.com" ∧ "hello" ≠ "@someone") ∧
    ("makan" ∉ STOPWORDS ∧ pyIsAlpha "makan" = true ∧ 3 ≤ "makan".length ∧
      "makan" ≠ "http://x.com" ∧ "makan" ≠ "@someone") :=
  ⟨c9_amended.1 "hello @someone http://x.com the" "hello" (by decide),
   c9_amended.2.1 "makan #tag https://a.b" "makan" (by decide)⟩
